import Mathlib

/-!
Verification of the Evaluation Assignment & Resumption Engine of the
`Web_ABTest_Reflections` repository (`app.py`), as a shallow embedding in
Lean 4.

The Python program is embedded as pure Lean functions:

* the two JSON source files (`worse2.json`, `better_phase2_format.json`)
  are external inputs of `load_items`, so the embedding takes them as
  explicit parameters (ordered association lists, mirroring insertion-ordered
  Python dicts produced by `json.load`);
* the Google-Sheets judgment log read by `load_user_data` /
  `load_answered_indices` is likewise a parameter: an `Except` value whose
  `error` constructor models `worksheet.get_all_records()` raising, and whose
  `ok` constructor carries the list of rows;
* `random.Random` (the CPython Mersenne Twister, seeded with
  `int.from_bytes(hashlib.sha256(...).digest()[:8], "big")`) is embedded in
  full: SHA-256, MT19937 seeding via `init_by_array`, the tempered 32-bit
  output stream, `getrandbits`, `_randbelow`, `shuffle` and `choice`;
* machine integers are `Nat` with explicit `% 2^32` wherever the C code
  wraps.

Value modelling: JSON payload values are `PyVal` (`str` for Python strings,
`other tag` for any non-string JSON value, kept opaque but with identity);
spreadsheet cells are `Cell` (`str` or `int`; float cells, which gspread can
produce but the recorder never writes, are outside the model).
-/

/-- Values stored inside one JSON entry.  The code only ever distinguishes
strings (`isinstance(val, str)`) from everything else; non-string values are
modelled opaquely but keep their identity through the `tag` payload. -/
inductive PyVal where
  | str (s : String)
  | other (tag : Nat) (truthy : Bool)
deriving DecidableEq, Repr

/-- One value of a judgment-log cell as returned by
`worksheet.get_all_records()`: either a string or an integer. -/
inductive Cell where
  | str (s : String)
  | int (n : Int)
deriving DecidableEq, Repr

/-- One JSON entry: a string-keyed mapping of `PyVal`s (a Python dict in
insertion order). -/
abbrev Entry := List (String × PyVal)

/-- One JSON source document: a string-keyed mapping of entries. -/
abbrev Dataset := List (String × Entry)

/-- One judgment-log row: a header-keyed mapping of cells. -/
abbrev Row := List (String × Cell)

/-- Python `dict.get(k)` on an association list: the value at the first
occurrence of the key, if any. -/
def dictGet (e : List (String × α)) (k : String) : Option α :=
  (e.find? (fun kv => kv.1 == k)).map (·.2)

/-- Python `dict.get(k, d)`: `dictGet` with a default. -/
def dictGetD (e : List (String × α)) (k : String) (d : α) : α :=
  (dictGet e k).getD d

/-- The `correct_uid` list from `app.py`.  In the Python source the first
eight string literals are separated by whitespace only, not commas, so
adjacent-literal concatenation fuses them into a single element; the `++`
below mirrors that source layout. -/
def correct_uid : List String :=
  [ "C-2022-1_U57"
    ++ "C-2022-1_U73"
    ++ "C-2021-1_U8"
    ++ "C-2021-2_U35"
    ++ "C-2021-2_U161"
    ++ "C-2021-2_U23"
    ++ "C-2021-1_U29"
    ++ "C-2021-1_U66",
    "C-2021-1_U21",
    "C-2021-2_U172" ]

/-- The `incorrect_uid` list from `app.py` (all ten elements comma-separated). -/
def incorrect_uid : List String :=
  [ "C-2021-2_U115",
    "C-2022-1_U52",
    "C-2021-1_U43",
    "C-2022-1_U6",
    "C-2022-1_U29",
    "C-2022-1_U61",
    "C-2021-1_U97",
    "C-2022-1_U92",
    "C-2021-2_U149",
    "C-2021-2_U1" ]

/-- `use_uid = correct_uid + incorrect_uid` from `app.py`. -/
def use_uid : List String := correct_uid ++ incorrect_uid

/-- `MAX_ITEMS = len(use_uid)` from `app.py`. -/
def MAX_ITEMS : Nat := use_uid.length

/-- The five-point `RATING_SCALE` from `app.py`. -/
def RATING_SCALE : List String :=
  [ "A が強く良い",
    "A がやや良い",
    "どちらとも言えない",
    "B がやや良い",
    "B が強く良い" ]

/-! SHA-256 (`hashlib.sha256`), over byte lists, with `Nat` arithmetic. -/

/-- Truncation to 32 bits. -/
def w32 (n : Nat) : Nat := n % 4294967296

/-- Right rotation of a 32-bit word. -/
def rotr32 (n : Nat) (r : Nat) : Nat :=
  w32 ((n >>> r) ||| (n <<< (32 - r)))

/-- The 64 SHA-256 round constants. -/
def sha256K : List Nat :=
  [
    1116352408, 1899447441, 3049323471, 3921009573,
    961987163, 1508970993, 2453635748, 2870763221,
    3624381080, 310598401, 607225278, 1426881987,
    1925078388, 2162078206, 2614888103, 3248222580,
    3835390401, 4022224774, 264347078, 604807628,
    770255983, 1249150122, 1555081692, 1996064986,
    2554220882, 2821834349, 2952996808, 3210313671,
    3336571891, 3584528711, 113926993, 338241895,
    666307205, 773529912, 1294757372, 1396182291,
    1695183700, 1986661051, 2177026350, 2456956037,
    2730485921, 2820302411, 3259730800, 3345764771,
    3516065817, 3600352804, 4094571909, 275423344,
    430227734, 506948616, 659060556, 883997877,
    958139571, 1322822218, 1537002063, 1747873779,
    1955562222, 2024104815, 2227730452, 2361852424,
    2428436474, 2756734187, 3204031479, 3329325298 ]

/-- SHA-256 padding: append `0x80`, zero bytes, and the 64-bit big-endian
bit length, reaching a multiple of 64 bytes. -/
def sha256Pad (msg : List Nat) : List Nat :=
  let len := msg.length
  let padLen := (55 + 64 - len % 64) % 64
  let bitLen := len * 8
  msg ++ [0x80] ++ List.replicate padLen 0 ++
    ((List.range 8).map (fun i => (bitLen >>> (8 * (7 - i))) % 256))

/-- Big-endian 32-bit words from a byte list (length a multiple of 4). -/
def bytesToWords : List Nat → List Nat
  | b0 :: b1 :: b2 :: b3 :: rest =>
      (b0 <<< 24 ||| b1 <<< 16 ||| b2 <<< 8 ||| b3) :: bytesToWords rest
  | _ => []

/-- Extend 16 message words to the 64-word SHA-256 schedule. -/
def sha256Schedule (ws : List Nat) : Nat → List Nat
  | 0 => ws
  | n + 1 =>
      let ws := sha256Schedule ws n
      let t := ws.length
      let w15 := ws.getD (t - 15) 0
      let w2 := ws.getD (t - 2) 0
      let s0 := (rotr32 w15 7) ^^^ (rotr32 w15 18) ^^^ (w15 >>> 3)
      let s1 := (rotr32 w2 17) ^^^ (rotr32 w2 19) ^^^ (w2 >>> 10)
      ws ++ [w32 (ws.getD (t - 16) 0 + s0 + ws.getD (t - 7) 0 + s1)]

/-- One SHA-256 compression round. -/
def sha256Round (st : List Nat) (kw : Nat × Nat) : List Nat :=
  match st with
  | [a, b, c, d, e, f, g, h] =>
      let s1 := (rotr32 e 6) ^^^ (rotr32 e 11) ^^^ (rotr32 e 25)
      let ch := (e &&& f) ^^^ ((0xffffffff ^^^ e) &&& g)
      let t1 := w32 (h + s1 + ch + kw.1 + kw.2)
      let s0 := (rotr32 a 2) ^^^ (rotr32 a 13) ^^^ (rotr32 a 22)
      let mj := (a &&& b) ^^^ (a &&& c) ^^^ (b &&& c)
      let t2 := w32 (s0 + mj)
      [w32 (t1 + t2), a, b, c, w32 (d + t1), e, f, g]
  | st => st

/-- Process one 64-byte chunk, updating the 8-word running hash. -/
def sha256Chunk (h : List Nat) (chunk : List Nat) : List Nat :=
  let ws := sha256Schedule (bytesToWords chunk) 48
  let st := (sha256K.zip ws).foldl sha256Round h
  (h.zip st).map (fun p => w32 (p.1 + p.2))

/-- Split a list into chunks of 64 (structurally recursive on a fuel bound
so the kernel can evaluate it; the fuel `l.length` always suffices). -/
def chunks64Aux : Nat → List Nat → List (List Nat)
  | 0, _ => []
  | _, [] => []
  | f + 1, b :: rest => (b :: rest).take 64 :: chunks64Aux f ((b :: rest).drop 64)

/-- Split a list into chunks of 64. -/
def chunks64 (l : List Nat) : List (List Nat) := chunks64Aux l.length l

/-- SHA-256 digest (32 bytes) of a byte list. -/
def sha256 (msg : List Nat) : List Nat :=
  let h0 := [
             1779033703, 3144134277, 1013904242, 2773480762,
             1359893119, 2600822924, 528734635, 1541459225]
  let h := (chunks64 (sha256Pad msg)).foldl sha256Chunk h0
  h.flatMap (fun word => (List.range 4).map (fun i => (word >>> (8 * (3 - i))) % 256))

/-- UTF-8 encoding of one character (`str.encode("utf-8")`, per code point). -/
def charUtf8 (c : Char) : List Nat :=
  let n := c.toNat
  if n < 0x80 then [n]
  else if n < 0x800 then
    [0xC0 ||| (n >>> 6), 0x80 ||| (n &&& 0x3F)]
  else if n < 0x10000 then
    [0xE0 ||| (n >>> 12), 0x80 ||| ((n >>> 6) &&& 0x3F), 0x80 ||| (n &&& 0x3F)]
  else
    [0xF0 ||| (n >>> 18), 0x80 ||| ((n >>> 12) &&& 0x3F),
     0x80 ||| ((n >>> 6) &&& 0x3F), 0x80 ||| (n &&& 0x3F)]

/-- UTF-8 bytes of a string (`s.encode("utf-8")`). -/
def utf8Bytes (s : String) : List Nat := s.data.flatMap charUtf8

/-- Unsigned big-endian integer of a byte list (`int.from_bytes(bs, "big")`). -/
def bytesToNatBE (bs : List Nat) : Nat := bs.foldl (fun a b => a * 256 + b) 0

/-- Seed derivation used by `app.py` for both random streams:
`int.from_bytes(hashlib.sha256(s.encode("utf-8")).digest()[:8], "big")`. -/
def seedOfString (s : String) : Nat := bytesToNatBE ((sha256 (utf8Bytes s)).take 8)

/-- The ordering-seed string `f"order_{user_id}"` (app.py line 365). -/
def orderSeedString (user_id : String) : String := "order_" ++ user_id

/-- The side-flip-seed string `f"{user_id}_{current_index}"` (app.py line 691). -/
def flipSeedString (user_id : String) (current_index : Nat) : String :=
  user_id ++ "_" ++ toString current_index


/-!
MT19937 (`random.Random`), exactly as in CPython's `_randommodule.c`.
The 624-word generator state is packed into a single `Nat` (little word
order), so that every state update is plain GMP-backed arithmetic.
-/

/-- Word `i` of a packed MT19937 state. -/
def mtGet (s i : Nat) : Nat := (s >>> (32 * i)) &&& 0xffffffff

/-- Replace word `i` of a packed MT19937 state. -/
def mtSet (s i v : Nat) : Nat := s ^^^ ((mtGet s i ^^^ v) <<< (32 * i))

/-- The `init_genrand` fill loop: `mt[i] = 1812433253 * (mt[i-1] ^ (mt[i-1] >> 30)) + i`. -/
def initGenrandAux : Nat → Nat → Nat → Nat
  | 0, _, s => s
  | c + 1, i, s =>
      let prev := mtGet s (i - 1)
      initGenrandAux c (i + 1) (mtSet s i (w32 (1812433253 * (prev ^^^ (prev >>> 30)) + i)))

/-- `init_genrand(seed)`: `mt[0] = seed`, then the fill loop for `i = 1..623`. -/
def initGenrand (seed : Nat) : Nat := initGenrandAux 623 1 (w32 seed)

/-- 32-bit wrapping subtraction. -/
def sub32 (a b : Nat) : Nat := w32 (a + 4294967296 - w32 b)

/-- First `init_by_array` loop (runs `max(624, len(key))` times):
`mt[i] = (mt[i] ^ ((mt[i-1] ^ (mt[i-1] >> 30)) * 1664525)) + key[j] + j`,
with `i` wrapping through `mt[0] = mt[623]; i = 1` and `j` cycling over the key. -/
def ibaLoop1 : Nat → Nat → Nat → Nat → List Nat → Nat × Nat × Nat
  | 0, i, j, s, _ => (s, i, j)
  | c + 1, i, j, s, key =>
      let prev := mtGet s (i - 1)
      let v := w32 ((mtGet s i ^^^ w32 ((prev ^^^ (prev >>> 30)) * 1664525)) + key.getD j 0 + j)
      let s := mtSet s i v
      let s := if i + 1 ≥ 624 then mtSet s 0 (mtGet s 623) else s
      let i := if i + 1 ≥ 624 then 1 else i + 1
      let j := if j + 1 ≥ key.length then 0 else j + 1
      ibaLoop1 c i j s key

/-- Second `init_by_array` loop (623 iterations):
`mt[i] = (mt[i] ^ ((mt[i-1] ^ (mt[i-1] >> 30)) * 1566083941)) - i`. -/
def ibaLoop2 : Nat → Nat → Nat → Nat × Nat
  | 0, i, s => (s, i)
  | c + 1, i, s =>
      let prev := mtGet s (i - 1)
      let v := sub32 (mtGet s i ^^^ w32 ((prev ^^^ (prev >>> 30)) * 1566083941)) i
      let s := mtSet s i v
      let s := if i + 1 ≥ 624 then mtSet s 0 (mtGet s 623) else s
      let i := if i + 1 ≥ 624 then 1 else i + 1
      ibaLoop2 c i s

/-- `init_by_array(key)` from `_randommodule.c`. -/
def initByArray (key : List Nat) : Nat :=
  let s := initGenrand 19650218
  let k := max 624 key.length
  let r1 := ibaLoop1 k 1 0 s key
  let r2 := ibaLoop2 623 r1.2.1 r1.1
  mtSet r2.1 0 0x80000000

/-- Little-endian 32-bit limbs of a positive integer, with structural fuel
(64 limbs cover every integer below `2^2048`; the seeds fed to this function
are 8-byte hash prefixes, hence below `2^64`). -/
def natWordsAux : Nat → Nat → List Nat
  | 0, _ => []
  | f + 1, n => if n = 0 then [] else (n &&& 0xffffffff) :: natWordsAux f (n >>> 32)

/-- Little-endian 32-bit limbs of a positive integer. -/
def natWords (n : Nat) : List Nat := natWordsAux 64 n

/-- CPython `random_seed` key for an integer seed: the 32-bit limbs of its
absolute value, or `[0]` for zero. -/
def seedKey (n : Nat) : List Nat := if n = 0 then [0] else natWords n

/-- A `random.Random` instance: packed word state plus output index. -/
structure MTState where
  state : Nat
  index : Nat
deriving Repr

/-- `random.Random(seed)` for a non-negative integer seed. -/
def mtInit (seed : Nat) : MTState := ⟨initByArray (seedKey seed), 624⟩

/-- One step of the MT19937 twist, in place at position `kk`. -/
def twistStep (s kk : Nat) : Nat :=
  let y := (mtGet s kk &&& 0x80000000) ||| (mtGet s ((kk + 1) % 624) &&& 0x7fffffff)
  let mag := if y &&& 1 = 1 then 0x9908b0df else 0
  mtSet s kk ((mtGet s ((kk + 397) % 624)) ^^^ (y >>> 1) ^^^ mag)

/-- The full MT19937 twist (`genrand_uint32`'s regeneration pass). -/
def twistAux : Nat → Nat → Nat → Nat
  | 0, _, s => s
  | c + 1, kk, s => twistAux c (kk + 1) (twistStep s kk)

/-- Regenerate all 624 words. -/
def twist (s : Nat) : Nat := twistAux 624 0 s

/-- `genrand_uint32`: twist if exhausted, then output the next tempered word. -/
def genrand (st : MTState) : Nat × MTState :=
  let st := if st.index ≥ 624 then ⟨twist st.state, 0⟩ else st
  let y := mtGet st.state st.index
  let y := y ^^^ (y >>> 11)
  let y := y ^^^ ((y <<< 7) &&& 0x9d2c5680)
  let y := y ^^^ ((y <<< 15) &&& 0xefc60000)
  let y := y ^^^ (y >>> 18)
  (y, ⟨st.state, st.index + 1⟩)

/-- `getrandbits(k)` for `1 ≤ k ≤ 32`: the top `k` bits of one output word. -/
def getrandbits (k : Nat) (st : MTState) : Nat × MTState :=
  let (y, st) := genrand st
  (y >>> (32 - k), st)

/-- Number of bits of `n` (`int.bit_length`), with structural fuel (64 bits
cover every `n` this program draws bounds from). -/
def bitLengthAux : Nat → Nat → Nat
  | 0, _ => 0
  | f + 1, n => if n = 0 then 0 else bitLengthAux f (n >>> 1) + 1

/-- Number of bits of `n` (`int.bit_length`). -/
def bitLength (n : Nat) : Nat := bitLengthAux 64 n

/-- The rejection loop of `_randbelow_with_getrandbits`.  The Python loop is
unbounded; the embedding gives it fuel, and on exhaustion falls back to
`r % n` (still `< n`).  With fuel 64 the fallback is unreachable for every
draw this program performs. -/
def randbelowAux : Nat → Nat → Nat → MTState → Nat × MTState
  | 0, n, k, st =>
      let (r, st) := getrandbits k st
      (r % n, st)
  | f + 1, n, k, st =>
      let (r, st) := getrandbits k st
      if r < n then (r, st) else randbelowAux f n k st

/-- `_randbelow_with_getrandbits(n)`: a uniform draw in `[0, n)` for `n ≥ 1`. -/
def randbelow (n : Nat) (st : MTState) : Nat × MTState :=
  if n = 0 then (0, st) else randbelowAux 64 n (bitLength n) st

/-- `random.shuffle`, counting `i` down from `len(x) - 1` to `1`:
`j = _randbelow(i + 1); x[i], x[j] = x[j], x[i]`. -/
def shuffleAux : Nat → List String → MTState → List String × MTState
  | 0, l, st => (l, st)
  | i + 1, l, st =>
      let (j, st) := randbelow (i + 2) st
      let l := (l.set (i + 1) (l.getD j "")).set j (l.getD (i + 1) "")
      shuffleAux i l st

/-- `rng.shuffle(x)` on a list of strings. -/
def pyShuffle (l : List String) (st : MTState) : List String × MTState :=
  shuffleAux (l.length - 1) l st

/-- `rng.choice([True, False])`: index 0 is `True`. -/
def pyChoiceBool (st : MTState) : Bool × MTState :=
  let (j, st) := randbelow 2 st
  (j == 0, st)


/-! The Dataset Reconciler and Assignment Engine (`load_items` and its
helpers from `app.py`). -/

/-- Truthiness of a JSON value (Python `bool(v)`): a string is truthy iff
non-empty; opaque non-string values carry their truthiness. -/
def pyTruthy : PyVal → Bool
  | .str s => s ≠ ""
  | .other _ b => b

/-- Containment of a contiguous character subsequence (a regex fragment like
`[^\n]*?pat[^\n]*` within one line). -/
def containsSub (pat : List Char) : List Char → Bool
  | [] => pat.isEmpty
  | c :: rest => List.isPrefixOf pat (c :: rest) || containsSub pat rest

/-- Python `a or b` on JSON values: `a` if truthy, else `b`. -/
def pyOr (a b : PyVal) : PyVal := if pyTruthy a then a else b

/-- The value of `entry.get(fld)` when it passes
`isinstance(val, str) and val`: a non-empty string. -/
def strVal (v : Option PyVal) : Option String :=
  match v with
  | some (.str s) => if s = "" then none else some s
  | _ => none

/-- Alias candidates of one entry in `build_user_map`: its top-level key,
then any non-empty string under `userid` / `user_id`. -/
def entryAliases (top_key : String) (entry : Entry) : List String :=
  top_key :: (["userid", "user_id"].filterMap (fun fld => strVal (dictGet entry fld)))

/-- Register an alias unless already present (`if uid not in m`). -/
def addIfAbsent (m : List (String × Entry)) (uid : String) (e : Entry) :
    List (String × Entry) :=
  if m.any (fun kv => kv.1 == uid) then m else m ++ [(uid, e)]

/-- `build_user_map` from `load_items`: an insertion-ordered map from alias
to entry, first registration winning. -/
def build_user_map (d : Dataset) : List (String × Entry) :=
  d.foldl (fun m ke => (entryAliases ke.1 ke.2).foldl (fun m u => addIfAbsent m u ke.2) m) []

/-- `extract_baseline_response` from `load_items`: first non-empty string
among `response`, `text`, the entry's own uid key, then the first non-reserved
string-valued field.  (The `isinstance(entry, dict)` guard is vacuous here
because the model types entries as dicts.) -/
def extract_baseline_response (entry : Entry) (uid : String) : String :=
  match strVal (dictGet entry "response") with
  | some s => s
  | none =>
    match strVal (dictGet entry "text") with
    | some s => s
    | none =>
      match strVal (dictGet entry uid) with
      | some s => s
      | none =>
        match entry.find? (fun kv =>
            !(kv.1 == "grade" || kv.1 == "userid" || kv.1 == "user_id") &&
            (strVal (some kv.2)).isSome) with
        | some kv => ((strVal (some kv.2)).getD "")
        | none => ""

/-- Python whitespace class, restricted to ASCII (`\s`, `str.strip`); the
datasets contain no exotic Unicode whitespace. -/
def isPySpace (c : Char) : Bool :=
  c == ' ' || c == '\t' || c == '\n' || c == '\r' ||
  c == Char.ofNat 11 || c == Char.ofNat 12

/-- Python `str.strip()`. -/
def pyStrip (s : String) : String :=
  String.mk (((s.data.dropWhile isPySpace).reverse.dropWhile isPySpace).reverse)

/-- ASCII word characters (`\w`), for the `\b` boundary after `assistant`. -/
def isWordChar (c : Char) : Bool := c.isAlphanum || c == '_'

/-- The substitution `re.sub(r"(?i)\Aassistant\b\s*\n*", "", ...)`:
case-insensitively drop a leading `assistant` (at a word boundary) and the
whitespace after it. -/
def stripAssistant (s : String) : String :=
  let cs := s.data
  let boundary := match cs.drop 9 with
    | [] => true
    | c :: _ => !isWordChar c
  if (String.mk (cs.take 9)).toLower = "assistant" && boundary then
    String.mk ((cs.drop 9).dropWhile isPySpace)
  else s

/-- The substitution dropping a leading boilerplate line
`re.sub(r"\A以下は[^\n]*?(生成文|フィードバック|改善アドバイス)[^\n]*\n+", "", ...)`. -/
def stripBoilerplate (s : String) : String :=
  let cs := s.data
  let line := cs.takeWhile (fun c => c != '\n')
  let rest := cs.drop line.length
  let hasKeyword :=
    containsSub "生成文".data (line.drop 3) ||
    containsSub "フィードバック".data (line.drop 3) ||
    containsSub "改善アドバイス".data (line.drop 3)
  if cs.take 3 = "以下は".data && hasKeyword && !rest.isEmpty then
    String.mk (rest.dropWhile (fun c => c == '\n'))
  else s

/-- Decompose one line as `^(\s*)(#+)\s*(.*)$`: leading whitespace, a run of
`#`, whitespace, then the rest. -/
def matchHeading (line : List Char) : Option (List Char × List Char) :=
  let ws := line.takeWhile isPySpace
  let afterWs := line.drop ws.length
  let hashes := afterWs.takeWhile (fun c => c == '#')
  if hashes.isEmpty then none
  else some (ws, (afterWs.drop hashes.length).dropWhile isPySpace)

/-- The label headings that get a trailing `：` appended. -/
def label_headings : List String :=
  ["あなたの強み", "改善が必要なポイント", "これから意識したいこと", "まとめ"]

/-- Python `line.replace(old, new, 1)`: replace the first occurrence. -/
def replaceFirst (line old new : List Char) : List Char :=
  match line with
  | [] => []
  | c :: rest =>
      if List.isPrefixOf old line then new ++ line.drop old.length
      else c :: replaceFirst rest old new

/-- Strip a `**...】` wrapper: `stripped[2:-1].strip()` when the stripped text
starts with `**` and ends with `】`. -/
def stripStarWrapper (stripped : String) : Option String :=
  if List.isPrefixOf "**".data stripped.data &&
     List.isSuffixOf "】".data stripped.data then
    some (pyStrip (String.mk (stripped.data.drop 2 |>.dropLast)))
  else none

/-- Python `str.rstrip()`. -/
def pyRstrip (s : String) : String :=
  String.mk (s.data.reverse.dropWhile isPySpace).reverse

/-- One iteration of the heading-normalization loop of `clean_baseline_text`;
the `Nat` is the running `heading_count`. -/
def cleanLine (count : Nat) (lineStr : String) : Nat × String :=
  match matchHeading lineStr.data with
  | some (ws, restChars) =>
      let restStripped := pyStrip (String.mk restChars)
      let rest := match stripStarWrapper restStripped with
        | some r => r
        | none => String.mk restChars
      let target := if count = 0 then "###" else "####"
      (count + 1, pyRstrip (String.mk ws ++ target ++ " " ++ rest))
  | none =>
      let stripped0 := pyStrip lineStr
      let (stripped, line) := match stripStarWrapper stripped0 with
        | some r => (r, r)
        | none => (stripped0, lineStr)
      match label_headings.find? (fun h => stripped == h) with
      | some m => (count, String.mk (replaceFirst line.data m.data (m ++ "：").data))
      | none => (count, line)

/-- Split on `'\n'` (the strings reaching this point are stripped, so this
matches `str.splitlines`). -/
def splitLines (s : String) : List String :=
  (s.data.splitOn '\n').map String.mk

/-- `clean_baseline_text` from `app.py`: strip boilerplate, repair the
mangled `改善`, and normalize heading markers. -/
def clean_baseline_text (text : String) : String :=
  if text = "" then ""
  else
    let cleaned := pyStrip text
    let cleaned := pyStrip (stripAssistant cleaned)
    let cleaned := pyStrip (stripBoilerplate cleaned)
    let cleaned := cleaned.replace " �善" "改善"
    let step := (splitLines cleaned).foldl
      (fun acc line =>
        let (c, l) := cleanLine acc.1 line
        (c, acc.2 ++ [l]))
      ((0 : Nat), ([] : List String))
    pyStrip (String.intercalate "\n" step.2)

/-- One canonical item as assembled by `load_items` (one row of its
DataFrame). -/
structure ItemRecord where
  item_index : Nat
  source_userid : PyVal
  baseline_grade : PyVal
  baseline_response : String
  student_advice_title : PyVal
  student_advice_body : PyVal
  student_grade : PyVal
deriving DecidableEq, Repr

/-- Lexicographic code-point comparison of character lists (Python string
`<=`). -/
def charsLe : List Char → List Char → Bool
  | [], _ => true
  | _ :: _, [] => false
  | a :: as, b :: bs =>
      if a.toNat < b.toNat then true
      else if a.toNat > b.toNat then false
      else charsLe as bs

/-- Python string `<=` as an executable comparison. -/
def pyStrLe (a b : String) : Bool := charsLe a.data b.data

/-- Sorted deduplication, the composite `sorted(set(...))`: contents are
deduplicated and ordered lexicographically by code point, exactly what
Python returns; insertion sort realizes the ordering (and evaluates inside
the kernel). -/
def pySortedSet (l : List String) : List String :=
  l.eraseDups.insertionSort (fun a b => pyStrLe a b = true)

/-- `sorted(set(baseline.keys()) & set(advice.keys()))`. -/
def top_keys_common (baseline advice : Dataset) : List String :=
  pySortedSet ((baseline.map Prod.fst).filter (fun k => (advice.map Prod.fst).contains k))

/-- `sorted(set(base_map.keys()) & set(advice_map.keys()))`. -/
def map_keys_common (baseline advice : Dataset) : List String :=
  pySortedSet (((build_user_map baseline).map Prod.fst).filter
    (fun k => ((build_user_map advice).map Prod.fst).contains k))

/-- The common-userid selection of `load_items`: top-level key intersection
if non-empty, else the alias-map intersection. -/
def common_userids (baseline advice : Dataset) : List String :=
  if top_keys_common baseline advice ≠ [] then top_keys_common baseline advice
  else map_keys_common baseline advice

/-- The `use_uid`-prioritized selection (stable, deduplicated). -/
def prioritized_raw (baseline advice : Dataset) : List String :=
  if use_uid = [] then []
  else use_uid.foldl
    (fun acc uid =>
      if (common_userids baseline advice).contains uid && !acc.contains uid
      then acc ++ [uid] else acc)
    []

/-- `prioritized_uids` after the empty-fallback to the whole common set. -/
def prioritized_uids (baseline advice : Dataset) : List String :=
  if prioritized_raw baseline advice = [] then common_userids baseline advice
  else prioritized_raw baseline advice

/-- One row of the `load_items` DataFrame for a given uid and position. -/
def mkRecord (base_map advice_map : List (String × Entry)) (idx : Nat)
    (uid : String) : ItemRecord :=
  let base_entry := dictGetD base_map uid []
  let advice_entry := dictGetD advice_map uid []
  { item_index := idx
    source_userid := dictGetD base_entry "userid"
      (dictGetD base_entry "user_id" (.str uid))
    baseline_grade := dictGetD base_entry "grade" (.str "")
    baseline_response := clean_baseline_text (extract_baseline_response base_entry uid)
    student_advice_title := pyOr (dictGetD advice_entry "student_advice_title" (.str ""))
      (dictGetD advice_entry "title" (.str ""))
    student_advice_body := pyOr (dictGetD advice_entry "student_advice_body" (.str ""))
      (dictGetD advice_entry "body" (.str ""))
    student_grade := dictGetD advice_entry "grade" (.str "") }

/-- The `for idx, uid in enumerate(items_order)` record-building loop. -/
def mkRecords (base_map advice_map : List (String × Entry)) :
    Nat → List String → List ItemRecord
  | _, [] => []
  | i, uid :: rest =>
      mkRecord base_map advice_map i uid :: mkRecords base_map advice_map (i + 1) rest

/-- The participant-order shuffle of `load_items`: applied only when a
non-empty `user_id` is supplied. -/
def shuffled_order (items_order : List String) (user_id : Option String) :
    List String :=
  match user_id with
  | some u =>
      if u ≠ "" then
        (pyShuffle items_order (mtInit (seedOfString (orderSeedString u)))).1
      else items_order
  | none => items_order

/-- `load_items(max_items, user_id=...)` from `app.py`, with the two JSON
documents as explicit inputs.  The final
`sort_values("item_index")` is modelled by a merge sort on the index key
(the key is strictly increasing, so any correct sort is the identity here).
For `max_items = 0` with a non-empty selection the Python code would raise
`KeyError` inside `sort_values` on an empty frame; that crash is outside the
model, and the theorems below only instantiate positive maxima. -/
def load_items (baseline advice : Dataset) (max_items : Nat)
    (user_id : Option String) : List ItemRecord :=
  if prioritized_uids baseline advice = [] then []
  else
    let items_order := (prioritized_uids baseline advice).take max_items
    let items_order := shuffled_order items_order user_id
    (mkRecords (build_user_map baseline) (build_user_map advice) 0 items_order).insertionSort
      (fun r s => r.item_index ≤ s.item_index)

/-- The side-flip draw of `main` (app.py lines 690–694): a fresh
`random.Random` seeded from `f"{user_id}_{current_index}"`, then
`rng.choice([True, False])`. -/
def baseline_on_left (user_id : String) (current_index : Nat) : Bool :=
  (pyChoiceBool (mtInit (seedOfString (flipSeedString user_id current_index)))).1

/-! The Progress Tracker (`get_next_index`, `load_user_data`,
`load_answered_indices`) and Response Recorder normalization from `app.py`. -/

/-- Truthiness of a spreadsheet cell (Python `bool(v)`). -/
def cellTruthy : Cell → Bool
  | .str s => s ≠ ""
  | .int n => n ≠ 0

/-- Python `str(v)` on a cell value. -/
def cellStr : Cell → String
  | .str s => s
  | .int n => toString n

/-- Python `a or b` where `a` is an optional cell (`row.get(...)`): `a` when
present and truthy, else `b`. -/
def cellOr (a : Option Cell) (b : Cell) : Cell :=
  match a with
  | some c => if cellTruthy c then c else b
  | none => b

/-- The participant-id cell of a row:
`row.get("user_id") or row.get("userid") or ""`. -/
def rowUid (r : Row) : Cell :=
  cellOr (dictGet r "user_id") (cellOr (dictGet r "userid") (.str ""))

/-- Row matching in `load_user_data`:
`str(row_uid).strip() == str(user_id).strip()`. -/
def rowMatches (r : Row) (user_id : String) : Bool :=
  pyStrip (cellStr (rowUid r)) == pyStrip user_id

/-- Decimal digits with optional single underscores between them
(the integer part of Python `int(str)`), most significant first. -/
def parseDigits : List Char → Nat → Option Nat
  | [], acc => some acc
  | '_' :: c :: rest, acc =>
      if c.isDigit then parseDigits rest (acc * 10 + (c.toNat - 48)) else none
  | ['_'], _ => none
  | c :: rest, acc =>
      if c.isDigit then parseDigits rest (acc * 10 + (c.toNat - 48)) else none

/-- Python `int(s)` on a string: optional sign, then underscore-grouped
decimal digits, surrounded by whitespace; `none` models `ValueError`.
(Non-ASCII digits accepted by CPython are outside the model.) -/
def pyParseInt (s : String) : Option Int :=
  let t := (pyStrip s).data
  match t with
  | '-' :: c :: rest =>
      if c.isDigit then (parseDigits rest (c.toNat - 48)).map (fun n => -(n : Int))
      else none
  | '+' :: c :: rest =>
      if c.isDigit then (parseDigits rest (c.toNat - 48)).map (fun n => (n : Int))
      else none
  | c :: rest =>
      if c.isDigit then (parseDigits rest (c.toNat - 48)).map (fun n => (n : Int))
      else none
  | [] => none

/-- Python `int(v)` on a cell (the `try: int(idx_val) except ValueError` body). -/
def pyIntOfCell : Cell → Option Int
  | .int n => some n
  | .str s => pyParseInt s

/-- The `item_index` recovery of `load_user_data`: present, non-blank after
stringification, and parseable as an integer. -/
def rowItemIndex (r : Row) : Option Int :=
  match dictGet r "item_index" with
  | none => none
  | some c => if pyStrip (cellStr c) ≠ "" then pyIntOfCell c else none

/-- The three survey-profile fields restored by `load_user_data`. -/
structure Profile where
  kyushu_student : Option Cell
  info_course_taken : Option Cell
  info_course_grade : Option Cell
deriving DecidableEq, Repr

/-- The profile dict built from one row. -/
def mkProfile (r : Row) : Profile :=
  { kyushu_student := dictGet r "kyushu_student"
    info_course_taken := dictGet r "info_course_taken"
    info_course_grade := dictGet r "info_course_grade" }

/-- Whether a row triggers the profile update
(`if row.get("kyushu_student"):`). -/
def rowHasProfile (r : Row) : Bool :=
  match dictGet r "kyushu_student" with
  | some c => cellTruthy c
  | none => false

/-- One iteration of the `for row in records` loop of `load_user_data`. -/
def userDataStep (user_id : String) (st : List Int × Option Profile) (r : Row) :
    List Int × Option Profile :=
  if rowMatches r user_id then
    let st := match rowItemIndex r with
      | some i => (st.1 ++ [i], st.2)
      | none => st
    if rowHasProfile r then (st.1, some (mkProfile r)) else st
  else st

/-- The full scan loop of `load_user_data`. -/
def userDataScan (user_id : String) : List Row → List Int × Option Profile →
    List Int × Option Profile
  | [], st => st
  | r :: rest, st => userDataScan user_id rest (userDataStep user_id st r)

/-- `load_user_data(user_id)` from `app.py`, with the worksheet read as an
explicit input: `error` models `worksheet.get_all_records()` raising, in
which case the whole `try` body is abandoned and `(set(), None)` returned.
The answered indices are kept as a list; only membership is meaningful
(Python uses a set). -/
def load_user_data (read : Except String (List Row)) (user_id : String) :
    List Int × Option Profile :=
  match read with
  | .error _ => ([], none)
  | .ok records =>
      if records.isEmpty then ([], none)
      else userDataScan user_id records ([], none)

/-- `get_next_index(all_indices, answered)` from `app.py`: the first listed
index not yet answered. -/
def get_next_index (all_indices : List Int) (answered : List Int) : Option Int :=
  match all_indices with
  | [] => none
  | idx :: rest =>
      if answered.contains idx then get_next_index rest answered else some idx

/-- Numeric parse of `pd.to_numeric(..., errors="coerce")` followed by
`astype(int)`, on one cell: integers pass through; strings holding a plain
signed decimal (optionally with a fractional part) are truncated toward
zero; everything else is `NaN` and dropped.  (Exponent notation, accepted by
pandas, is outside the model; the recorder only ever writes integers.) -/
def pdNumericInt (c : Cell) : Option Int :=
  match c with
  | .int n => some n
  | .str s =>
      let t := (pyStrip s).data
      let core : List Char → Option Int := fun l =>
        let intPart := l.takeWhile Char.isDigit
        let rest := l.drop intPart.length
        let frac := match rest with
          | '.' :: fr => if fr.all Char.isDigit then some fr else none
          | _ => none
        let ok := match rest with
          | [] => !intPart.isEmpty
          | '.' :: _ => frac.isSome && !(intPart.isEmpty && (rest.drop 1).isEmpty)
          | _ => false
        if ok then some (intPart.foldl (fun a c => a * 10 + ((c.toNat : Int) - 48)) 0)
        else none
      match t with
      | '-' :: l => (core l).map (fun n => -n)
      | '+' :: l => core l
      | l => core l

/-- `load_answered_indices(user_id)` from `app.py` (the pandas-based variant;
superseded by `load_user_data` in `main` but kept in the source).  Column
presence models `df.columns`; a row missing the user column stringifies as
`"nan"` like a `NaN` cell would. -/
def load_answered_indices (read : Except String (List Row)) (user_id : String) :
    List Int :=
  match read with
  | .error _ => []
  | .ok records =>
      if records.isEmpty then []
      else
        let hasCol := fun (k : String) => records.any (fun r => r.any (fun kv => kv.1 == k))
        let user_col := if hasCol "user_id" then some "user_id"
          else if hasCol "userid" then some "userid" else none
        match user_col with
        | none => []
        | some uc =>
            let target := pyStrip user_id
            let user_df := records.filter (fun r =>
              pyStrip (match dictGet r uc with
                | some c => cellStr c
                | none => "nan") == target)
            if hasCol "item_index" then
              user_df.filterMap (fun r =>
                match dictGet r "item_index" with
                | some c => pdNumericInt c
                | none => none)
            else []

/-- Normalization of a verdict selected under a flipped presentation
(app.py lines 815–817): `RATING_SCALE[local_options.index(val)]` with
`local_options = RATING_SCALE[::-1]`. -/
def normalize_flipped (val : String) : String :=
  (RATING_SCALE.getD (RATING_SCALE.reverse.indexOf val) "")

/-- Re-application of the flip to a canonical verdict: the value shown at the
same slider position when the options are presented reversed
(`RATING_SCALE[::-1]` at the canonical value's index). -/
def present_flipped (canonical : String) : String :=
  (RATING_SCALE.reverse.getD (RATING_SCALE.indexOf canonical) "")

/-- The `source_userid` assigned to a uid, read off the baseline map. -/
def source_of (base_map : List (String × Entry)) (uid : String) : PyVal :=
  dictGetD (dictGetD base_map uid []) "userid"
    (dictGetD (dictGetD base_map uid []) "user_id" (.str uid))


/-- The baseline mapping of the end-to-end example in the specification
(two subjects `u1`, `u2` with grades and responses). -/
def exBaseline : Dataset :=
  [("u1", [("grade", .str "A"), ("response", .str "foo")]),
   ("u2", [("grade", .str "B"), ("response", .str "bar")])]

/-- The advice mapping of the end-to-end example in the specification. -/
def exAdvice : Dataset :=
  [("u1", [("student_advice_title", .str "T1"), ("student_advice_body", .str "B1")]),
   ("u2", [("student_advice_title", .str "T2"), ("student_advice_body", .str "B2")])]

/-- A baseline mapping whose keys are shared with `cxAdvice` but of which
only one key (`C-2021-1_U21`) appears in the `use_uid` allow-list. -/
def cxBaseline : Dataset :=
  [("C-2021-1_U21", [("grade", .str "A"), ("response", .str "r1")]),
   ("zzz", [("grade", .str "B"), ("response", .str "r2")])]

/-- The advice mapping paired with `cxBaseline` (same top-level keys). -/
def cxAdvice : Dataset :=
  [("C-2021-1_U21", [("student_advice_title", .str "t1"), ("student_advice_body", .str "b1")]),
   ("zzz", [("student_advice_title", .str "t2"), ("student_advice_body", .str "b2")])]

/-- Intermediate MT19937 state (see the seeding lemmas below). -/
def mtG1 : Nat :=
  1317599805016112088137257377608593996510137573610372273504028274368515873229427363521368266684393655196589929489625647421953515026132828943540638127735935584679165203928772039084895248823551433189829190199558143535906962946105940259674869852508262768264585160689365888455076854664671959704671245965806514558249012682370827841175900124500912645463742182731673748828135116806265366612830604457413719412268173191597421227469165112799825193551972937033224185627554639886558013329826192579210768941139401189949042267702912811673278488368622870104831953819397658175230305258226526567006019762045074660703176779825136894828625672627793048196802336543766998192802431124420850872379722622053567152775603482285423706445299567963204364482309838893539521527472933272741233575069826295922059444219272026999377060622785623615409077739158417438755728095299128766351180329394404114474239338234779413952495043134977437107917780929881104443372989617983919966346519721415321328829091740375037574373886296500592701919885227600535344453721679435923057501464349446308499551301990359820109996415135332422913632401879888817850556306508338213123019746032143136461387162778439649236728826315455256047790040457657098939833137970078984803357783783896206978240251151161632415186505134037489025474570336543566330552702203037056065030748922131381509673860744059378078086942185000779837749097543267887007958005422739803537952596256287028255060982990104931047791499602108794963466734429620487275415211507269424972431492298844001360445056255875053520454680228209348810688793612925413972237473205918859253611864248846055931214934565417740671774459886962077957503944907807180249536885273428269119237168718490510852803675106998207202680082262099308829947352762717268286264035411327555876071616055407287577871607712738342097953063610940136922988699360200625375954098590006505970366671259315459977987303431309654248741473840380810197310098409318748590201637051911426672306553733799107393336740657849553749538577190232778226436712290545119148723774674602

/-- Intermediate MT19937 state (see the seeding lemmas below). -/
def mtG2 : Nat :=
  804132580142454312959598788528401781917072108696100871537062538331154274284941319127259320848788594716631196511416154612618597823463979584464938097367032287312279182972952712025263837936847043852655799925279641768469685843774116450276918255954034538137240408822192691783452756641134263561087209445210411046319559490086738329210322385283425249918768319913358870575537259832034208318498486609881379000420784520622433985697153287185917436810151379601651131113641348359749376612065029087463710868204039538022254711080807675143196497318678150405278531927273934685103627258679414376631590172676972446318419158674241555157749563031968839258594948331045209420000948157497808729918586505714863542761314277666265731128176216312199579864493153314688241218914060997279399314285563305430388172938021098199531348862437933319757773274328501929178000614347891494805387578284069198702814579143636348574794515880829004196732283179919368798310286566800751070501281371294691324227807966017587901439679957786199317957909313938646971952897753446437199221694045376935742202952784312200222775588728647410226567432300784939850183266075357061328042382019876997179860375538655729220029358205838342757730060725497609140742025457324205324092584912248157382555734334671476371881641846800476717449669514230054670557566171833968703117884888790687732001983460271754710521033864597246574608241986373644178637348064332063472508772257576128787472375726227370914041679736095318033443235305880949984242267052327022050970192731748052101152986547779374340677991598922759071614288041685732201051115927159442007070752925991023963438093508118105144316362322060371332416460457052968277363309066551243535706946035195875262445436455840613355818054742731166888358580297779427040675336090415747072607079883536339173257398273828487730049664621502542990580104289240166341527118599020877563399712298321880055158275858642837119690150287393956715939065461749483535909303403396554503689534427047920467577563473925463214099952375824985941950793310299123786874489439752849295285129695483684900990830138794599043486621857460834437418179982999415717264312264218648482469365552324002569400657565032962417381939399651951811325672410143944213855707097476052490059160017955748443285082461280429278747436255217575125397967380534922051984556452913856301984632541721233471533404315228955799525750146003797323057822718296954429331264388804575103055383928576315088341225624069537781791522802773749594913679608476801959998678302665740548130708647715250285054200389492964706764081655800097335923850828772529821780974651989414942286628639147554811918355602302238966014764814955770955125201714634571395989736259543988521989828027732468632295463336455362640876195415494531428517145535004166116752561365090598719620319643872671986082830384199559800780090315650456635643576420366760827930309359768892308170869685835056754246431619245401967850443160826079531772781982706093450079770021029601557775385460171047747246790504820373648070492103713814272886204056679589492887348108029198792657412062535710107964385661615786858031080318973934238693345345437306475574437852461492017715929726616488086088009916785859889292748107241279383476125137296969131585154359658550243437207942920410724068346180228287958495372186008553683244314067480544491072753152991570178792711444124731645158569712040367291513488413637956219047944487331695441173076632935414711992036233314733242079808990518364013710072058076959337519982635610458404952541380224058060661668260665296664846886746196238778196388487951190328407272451267520130532551110415067499600552654001408230988131267722897090507694917222547099044613562826113176685723161394246326046191822147608548617394734262788899192399944094664766872301832155471360237171981218601587504672396625587892742343977631081638222604744479773233782535052165048028636824033698482890892285331903163770477429180125468655059586150937262744053574187755854863900577932799196673000412996010203181691207866362075410804507426242675965105854765434263203825090003831493587506567253198624426

/-- Intermediate MT19937 state (see the seeding lemmas below). -/
def mtSeed0 : Nat :=
  62685089405509111925910797243914719854890513935494713084094713797279779630627496305943786046941309007281293105221577504421353501605599255248785149356818580886163074212016138319710181437623915839386196989339984175865611290932895638485827512283879634622589907034847096838980553398268338905605705315464924834076955485269257682765843392777664062904318116756644819538761883164862381873685805923051342196114892111881287659915424456096361326051748180740843339721465950121631833352165428366344241754810081140762710579390137795215443629123183303201044796731629341661542390258966032612552126580439913324626563213547393121217728067632048719897064596438939163041106934301355643192260261867872030533878188557727018817797219012064641958276099544136480610826250078810896212505254064619595899307426216931651016613164877613570296351724055264357110051005104450572173606849938075379012356137114572525910752676385589168436483206759652170097284388598518122222819376116616668668677988651997615236221431416155794821321118852088948452164682783715959922435191327367306488124638818446090532334864386359317233873012285172875896330714873881780586230596002778688422250420590175698633544778262136505069053046737202152515000629854634631225453245996997340762744567896897683212149150732909707719966588817675821630380251456266588599804209831660991462715440400663143017564651072677052296295930367391822676512661642282350234567553218318066651318510488484545671729568971887621684270732981974442582657502555066960418690332945218280990034155505553171409775830458482159957769211244505225186771766058316021949327301666418107251589707938065072144733816368743637495699897181007119363672460040974223449086641663004605507793014252452324150238463715514559124307431648478948480649031081489229583165223570218974125422263886587593014744330199975749832650568652404661542746543584685860761547297457070273167102314576665676644281998277713093924236551494770138725647883566971887853912300960949802636372591951717316415323846182747445131420005722224687602711525724505110953736568981699982016588947035894059736087136235396798804019434387781559696138411966704777989194870090051835909943079457649936020314680876367897457337488804889342331824364904005266943816631681518612047693872607083945336048154993001716858914072302230374294986610531277637599664647525761147514008899238689946802093944865612982597431648203028809043429562401771290925843222821220221381984318518256971016750121270624021542153515130386081256853244444367484914891752438843250797295149886721543902585582757118492217204960123203770309672216674331373413106027454841661967870247822106376003696537006476355273043676224973894002060133928765135363584693312631060562155459381152426642778209514491263275588735458188352331628933634618912177576995916817414488324819680108333628484452298807271017999262374749573133359090629722111402666396222385680310709557844049479865847370371052888681758484468279513921172987571336140289500145715018352119752770038578015899178947425013401300127437407370742417936980607757405410607208376626705322894782663757703548808362869195819947150150865798288136994832911439410269353230208345410503242199606186650417333579047848825834242257112060317620885151293421378661990197161958015730358249113963865616811805417654957899792836277351433146683316643158745577273742588847277405020330699298979666450169324546781433015633218213248018986767013905101885085728066131985273947793365444250280947765884488609302913437528001802423347517836456663978922564542901160075954132077499502061844004777463229898312792357201472450520034421742281215395838957029567457078867297742321364249618062920323524100796395855490398720473188748064226082130624085325443879193454095100721902723688608983702297802922465778395428510531587340343771240068168890882622394112252370643121994567113348850616779414952571984309063927162547038575769391208822294299053225776973195785292510157058775147687493667385905281728614066936870793483631104130486096422866739022254251631022238998824784309871214211336594149372534724828516536519652291847191320934127662041939033266344757810255450761243406685982638804631309022215852991706323223872506356963395668107287976200691035733250165615782065576159415303394415966535152327550107294310945533761757937224536792146711105700674959937207778503501562879445241463662142281185819506210181780721218897488871995890898495582077564387715740371190275817001449471008660140255770382875594805433223352833476546594040372715841292252983175468170554585838014797017976570586587751089146553833551413146641975370517778330202052282190648141351908509904289169596729111939424597802445523234111653813513351586367960175769546506050051493655326103823629699245586418016468660736051425039803522537493270385743437525903109563398688573456345292160567787373069854610200635728800730405759403691875432721043746233636765094325962472698626875833148826372580999341547042531665331710768365982359935219565301595187067772247975847412037958098451506998773182171027695752045356894447709388159633645629545493246019135820915900506906032640701290570506299065346661219735445730896769091171352761432210047450382980030625592142825700677633624952217795344145832513082782540989616413040988227257601039794195623143595351637462190706636535912449334420058581521218743569834717812580171279915160794789675762903718339466089866492140118823551337811927493524761760551434001520245324751568861558716803095718510972066599595072196209156923318071322517301806566620458899402166430591631348363311478802800521980525250372511467674969151489645720009661369785217086930227581405674315978920044798755483144811069077253851302610194739624245401270682864202663540116818822475326676741780611737275972111438408802370422377608919256570335384654037352344114105999356653180812503717835632673409647782213628400383443178293619326757139369589058612122088577237252104060778375287897543799460272211546791798613974575310224299012205778134871255296492395729078221387894808011355820153110205338707003138385845672884757408327786763143168159295742358655797897448897721796416755370

/-- Intermediate MT19937 state (see the seeding lemmas below). -/
def sA1 : Nat :=
  62685089405509111925910797243914719854890513935494713084094713797279779630627496305943786046941309007281293105221577504421353501605599255248785149356818580886163074212016138319710181437623915839386196989339984175865611290932895638485827512283879634622589907034847096838980553398268338905605705315464924834076955485269257682765843392777664062904318116756644819538761883164862381873685805923051342196114892111881287659915424456096361326051748180740843339721465950121631833352165428366344241754810081140762710579390137795215443629123183303201044796731629341661542390258966032612552126580439913324626563213547393121217728067632048719897064596438939163041106934301355643192260261867872030533878188557727018817797219012064641958276099544136480610826250078810896212505254064619595899307426216931651016613164877613570296351724055264357110051005104450572173606849938075379012356137114572525910752676385589168436483206759652170097284388598518122222819376116616668668677988651997615236221431416155794821321118852088948452164682783715959922435191327367306488124638818446090532334864386359317233873012285172875896330714873881780586230596002778688422250420590175698633544778262136505069053046737202152515000629854634631225453245996997340762744567896897683212149150732909707719966588817675821630380251456266588599804209831660991462715440400663143017564651072677052296295930367391822676512661642282350234567553218318066651318510488484545671729568971887621684270732981974442582657502555066960418690332945218280990034155505553171409775830458482159957769211244505225186771766058316021949327301666418107251589707938065072144733816368743637495699897181007119363672460040974223449086641663004605507793014252452324150238463715514559124307431648478948480649031081489229583165223570218974125422263886587593014744330199975749832650568652404661542746543584685860761547297457070273167102314576665676644281998277713093924236551494770138725647883566971887853912300960949802636372591951717316415323846182747445131420005722224687602711525724505110953736568981699982016588947035894059736087136235396798804019434387781559696138411966704777989194870090051835909943079457649936020314680876367897457337488804889342331824364904005266943816631681518612047693872607083945336048154993001716858914072302230374294986610531277637599664647525761147514008899238689946802093944865612982597431648203028809043429562401771290925843222821220221381984318518256971016750121270624021542153515130386081256853244444367484914891752438843250797295149886721543902585582757118492217204960123203770309672216674331373413106027454841661967870247822106376003696537006476355273043676224973894002060133928765135363584693312631060562155459381152426642778209514491263275588735458188352331628933634618912177576995916817414488324819680108333628484452298807271017999262374749573133359090629722111402666396222385680310709557844049479865847370371052888681758484468279513921172987571336140289500145715018352119752770038578015899178947425013401300127437407370742417936980607757405410607208376626705322894782663757703548808362869195819947150150865798288136994832911439410269353230208345410503242199606186650417333579047848825834242257112060317620885151293421378661990197161958015730358249113963865616811805417654957899792836277351433146683316643158745577273742588847277405020330699298979666450169324546781433015633218213248018986767013905101885085728066131985273947793365444250280947765884488609302913437528001802423347517836456663978922564542901160075954132077499502061844004777463229898312792357201472450520034421742281215395838957029567457078867297742321364249618062920323524100796395855490398720473188748064226082130624085325443879193454095100721902723688608983702297802922465778395428510531587340343771240068168890882622394112252370643121994567113348850616779414952571984309063927162547038575769391208822294299053225776973195785292510157058775147687493667385905281728614066936870793483631104130486096422866739022254251631022238998824784309871214211336594149372534724828378367443448372253030890169877833160474791291249568044146703938706610428961992553035887553218731163324404348275893155578075737703861410562630646101667915386169451325624160999806841967415427641070040303520455129947903728580738118547609520977195577914328334452506521795764871555221520760984862382582066651801077994915869720007757284197252402691896085111455655196619374928558243578199214220853602413939981878425711793797041510370678739560548688987992482222542171997254871814575161412403368107030741087220598894795065137590004966477126075745135627103706601313787375364141801183240353481682891863901037484824238195713608895551642591630617502963443890812475680756610375239597763491187567626397634955185842884215294114523253654517506579604788641164689834714895573563077731283146635599599393392478399283836110801028752970143346905346310877998548260149848282074898555207088064207308643636127597395654415668532550627714333869044545808895638610353113817647670803934118321488054816592466006062782340084462664861194246954586604102678645706164027993862298261056841542850310799311360079444959767457971528114147956911843648272136171344318801198192545635567243542496983507806718925526528509503201812631376789046110554993046352382813146252154128871270032203748401433791360916729421489023759732696563674283793162689326462495376091402750694932955982152111202732313878474229688450357447325411193879230063844486122804641984187030908052168358080696985738235092279318141810106374927833108395535430979215586031305344869845599016566159066060233242836362714670364238395643832778062481253678289941944587886512107224329786482895277182114383478688294323112422395596621029221000940695780506453371092936051530385779263014677078446635016112611533760837236750770436944539436368391739404290639103355863739809284440174005427529982423962788818669929490113206599035196427897167147887750488336342563932825394064226089937472143751692502096878900457676413432907128468747454022383173093881779021566677108205207586183049555614620561084903847487784354567850

/-- Intermediate MT19937 state (see the seeding lemmas below). -/
def sA2 : Nat :=
  62685089405509111925910797243914719854890513935494713084094713797279779630627496305943786046941309007281293105221577504421353501605599255248785149356818580886163074212016138319710181437623915839386196989339984175865611290932895638485827512283879634622589907034847096838980553398268338905605705315464924834076955485269257682765843392777664062904318116756644819538761883164862381873685805923051342196114892111881287659915424456096361326051748180740843339721465950121631833352165428366344241754810081140762710579390137795215443629123183303201044796731629341661542390258966032612552126580439913324626563213547393121217728067632048719897064596438939163041106934301355643192260261867872030533878188557727018817797219012064641958276099544136480610826250078810896212505254064619595899307426216931651016613164877613570296351724055264357110051005104450572173606849938075379012356137114572525910752676385589168436483206759652170097284388598518122222819376116616668668677988651997615236221431416155794821321118852088948452164682783715959922435191327367306488124638818446090532334864386359317233873012285172875896330714873881780586230596002778688422250420590175698633544778262136505069053046737202152515000629854634631225453245996997340762744567896897683212149150732909707719966588817675821630380251456266588599804209831660991462715440400663143017564651072677052296295930367391822676512661642282350234567553218318066651318510488484545671729568971887621684270732981974442582657502555066960418690332945218280990034155505553171409775830458482159957769211244505225186771766058316021949327301666418107251589707938065072144733816368743637495699897181007119363672460040974223449086641663004605507793014252452324150238463715514559124307431648478948480649031081489229583165223570218974125422263886587593014744330199975749832650568652404661542746543584685860761547297457070273167102314576665676644281998277713093924236551494770138725647883566971887853912300960949802636372591951717316415323846182747445131420005722224079068450995347587761575047486417853035566216297632330087643619389534516259832547646337568060106487302079963269457516764821048010055893953526927518022065422621795082130410536497624098387260169171221595752653926742868786072422710653326738238675469481423817248312289958506087475864515043274142091003423413348051365698143925328104017838303205670426167606089691346086045396017726160758675085257158575768643153142484325185325298683208427177453540942737673931950278243491946108243929085439971797417509002096352503170740996775027104839069534321708819810164151638679663412054726426855079507369938877459084264993060646371435938423591836365084011979394379830989251778523225340008291833837095552868453035977954276629443757082194162902730954106298762217695061514860300921110344881745483285567903430546037087529597012412326759431879154123443616595988759067696426555752413919199350690695852996337898851479086095965543727523304173001004772883566940759290713603695936712756043377163717038714093528281150088102096296287285336942143377921356737857647345028295533499680911000647289097436179905845348750106489069501729543146530456733463400707250446154113258738791368120771151427758084427189982407872536115250612762070151759879718414202673791471094539332351157718777666819364909681091136362900917058627206443245792464865296796390571704732798150720901539316946829410362127498033626006139841929946046450931105662152707711532793089335295848781484730079748959134477861282847464841484577169159461951964230711591186150944228013638841954166905670703684327636775231959873964570822277898396917052758235629837279308652930000654121451086158881182458542113470567124233545652718273200927117584427029738009755794127525488244792581002699206116832134082741048890734134201727121164793491956245163926313423826192385849332634097442784198587016270418179206432460557678967087854325711647029381515358293037843238388499163749947820179769135264696181198729241442302060291910115970234242049300358498459612901991545917670075625389051033081639709302279554884745595825341934080560438162645756466054861393311193943313021471602457250583814954086327055835858084828264413149258600157909106376294962265132886677980271175208205221372922777375740784621821373987701786270184579132873431153418226295763427732867650697080728424167781268956436599053495580031254039954115345887072826631939357225988589622927471726429619311802223954589644731853760667519306953568149357020493375160352890594283511833587717774272158505138166023533367357390642354829669071510662938372903001233101754889795900444962069343040686971561351076374368142942327892132485368573862599718882642586817185128772464355439381438900949144114181274702760688984374380941259527983176889470971748715810411853512541923439376894437151370323690040573326717335028347590151086466138807836980336217469889013036896150193062420868768740202391245336775315476698274550226478386859247310707459707839497566744135812777436019094568305970903536094069832591777777156543811798421817871128460331132010175107876254057616804850497080671315594603422123407205650848605521436893687058176706107972803752756342695171829094370785362952068841839558234781637145788400868744452904275911489294547476903222329742793575120102181900619085759983164506605426954171728081555882683179249039683515544440136884044714988081486528045359238109899559858536712417604738562723422706188303827749596419028184734156863164864457844577865995653651335097721834890720098339034262006699603589964579062632548857017242571094634442324324881915091229763689359026329944897258137620671594115180718915299108009097743283748064688046049186367978625435350354570655030812903567298274217826623930769868256009156956899237570399834964043357392408308310785430525446850658547456945847780143576199153431314559551457122685584247582711278870790804750658086799334652618634738328569655894964617074695418841133032365003690511733411593789379837384118233697845182773839763414506449694663098049591565242313807441169249439360667315422494440262444559273564507455103700004880950836247554326419723946

/-- Intermediate MT19937 state (see the seeding lemmas below). -/
def sA3 : Nat :=
  20094370449857881399313971722656720395072347793131636559226960402932852081647900806903652572791745697665223861917475718582875089573410509601219161601566606724105233671263183567837475934893736955197973012145278409338522457096742836414722133891503491268615612760268373383956612675553362717170141856173946155127490562653467179768127627299140115585082039916317462562750822022336188255343241046806696385583128301779739996776109537346776148711783759059923490252061051214063202697535205910790193265202058395352322318782905085508154611837817423869449873728966889018139796229778122469858483925550795818777870023574381581608493552428806948451534351156273469959209550252222653707402204563556064270418226547565590982720243092571279237645201850137559538591583068943410724142276511033637216963089957224256499810919359622012178323360476317736084123672169816446853636989662823719926971431764856203426571646183603843443947246761394517219041703742991274431675302482425300132242011855765218245400209372315011799424550331128792397141093775108764229276601188081993853298038873261329186034906070891080021539282571542072010252383223743730312374638779088726152769719714935854357404374798191158336881604347768910511020612865789290523120222006238269851877321960122336913782710787289711932745517583760665326338999436700552432974960714222558854326819511871896621673938302821892355186402746803721536442590681852557119160268322295607865276325203195077481888731221722936403678081151084222260916942797859705918884038608578374683257915984919766054478120820935977939226904461775811008102892353828775741012431524277885407361062995676246969484589932632258120908622599081063470621502501718606814492741380487968036961861725057287702972530647649477718150721300117329546160165937978408919493303447416106524086147502886467187344110053925092861164955421331261650708099717896668080427508320269097982068577609637572057511287944723014620781158306007542750585177286968919286355102528847670640011958259196546046990043393915780621208641014940969563469869688103991170626390248539444574153019464823928831238894499711500433801308603569167582022353406888224078979792789421742089650607582629409645537122566053751383636365527324934486471156300222447823981324249034703283325386021364457130374194105789808384736157672554578698895875912078471654512958447613234962819264360547233852687247401503250569842593934769390004332050579289968367896560920348860871337628595388910505781168999138631827493949582997913080653109339477772672456318939629595294308717802197431050721981605497894719698824972251478274280916404358603227769811412784872126665038017807676872567877165371813581274691366098500716886541977840604302238775178749474248446697236039731564288279167906439355088419541910239195754704900683639413839362757834656929773519505411984060992736722953103481004559596173917823068571579769081781747682918279205674458693295995844535926416123744005072329342273206558303168197992693632654035291527257054470940424364511136687444251706697127011846839505289343155218138800963200255676005212067362186294633249369156095304037595646719603430086355313338584167469484209576443293575497146324243839893257118071476710868745140965565171383451407262218027748188432752631816399627242083461616750495166215608238286578699711752489018981137418583484344580619450985209707352258209824891591773301784851207302335292136258390209073396806202140269847210127960787982704749361961094504782453332114988183564344931657919042489986189653155151833219824869634321933497378817567221588728436646079507233433240848918699445823618047531522814819718575358117948461364870012601648431763728677900226188630059325098764292035988140833314668829602680323672966321573004182503658306791696348988435163882626003953414046935113646997575857901356801357586631948974834660548179626542643980715368551345734789921858484766298807322729621454344925763868696196693141657936022734739471977164726094037806990870825474147948363278425147112467661747898241759937889513930592548877165474938887341332132143287720225715281068969242716878598649984889782340318294589537213663536645396211687055009011574429184801570886415879591626817855928215144605897472700273570338866857759763270645431129274113990555284962572051937439731808601780774657261202054672101907593676416891691028527589492630312003414177481526615526360283680204880841652795239709947535816899878607748287830923928787656243088677336291796746185011253075467293736742345788859941757212863214114849113210122213995840598110281257083622995259074591762334122741612175775736918117111346670158682861344762075365233001921878727256124513003966482973715589804089961144840365157852378209997289241784120110435275361255315567955112702305963509162937552335272409053357012889908624151466039594669671546715197711117072918896558509815190412719903765224802879233480244918829331799677235423529986225221953899739557430256228119139167940398490034588601601854452608925573679487541889057607747550226646666142801191096775977979580355618507225698966520692401516005419861589983596203322884622345327061556756571274908439042685016580725374611700026824967707504996316819007402099134504448119781074398904161935125480976425568738666729102169751624578417003905791710863811115293831049352723176271274144212272499846919683270924057763152683519877629047847888058017788437947097875611722579184562942079281368532062791013632847550687557398193080685994755564259529782964423793140521428214005359010889733359442112764969302754501535313164582598513461067334897709150254756403303116916465982602895209073400311065377040342942613414024594889263845783989549706436904007238459729425473455823410630838986617596715953338005452885523862933859975201387510440134152627519334434428698795718772997388865482306370123903750444372854261890132731409572153865711007154956082977911559333634439416364470423711183575742675057719810748959491657735192599404526881971801929518391029537927024001320955702410564520169760373395268500416709558268979921556122716792469329021509043838003641373410542305076116582301019084440188075550803927039052067020880200

/-- Intermediate MT19937 state (see the seeding lemmas below). -/
def qA1 : Nat :=
  20094370449857881399313971722656720395072347793131636559226960402932852081647900806903652572791745697665223861917475718582875089573410509601219161601566606724105233671263183567837475934893736955197973012145278409338522457096742836414722133891503491268615612760268373383956612675553362717170141856173946155127490562653467179768127627299140115585082039916317462562750822022336188255343241046806696385583128301779739996776109537346776148711783759059923490252061051214063202697535205910790193265202058395352322318782905085508154611837817423869449873728966889018139796229778122469858483925550795818777870023574381581608493552428806948451534351156273469959209550252222653707402204563556064270418226547565590982720243092571279237645201850137559538591583068943410724142276511033637216963089957224256499810919359622012178323360476317736084123672169816446853636989662823719926971431764856203426571646183603843443947246761394517219041703742991274431675302482425300132242011855765218245400209372315011799424550331128792397141093775108764229276601188081993853298038873261329186034906070891080021539282571542072010252383223743730312374638779088726152769719714935854357404374798191158336881604347768910511020612865789290523120222006238269851877321960122336913782710787289711932745517583760665326338999436700552432974960714222558854326819511871896621673938302821892355186402746803721536442590681852557119160268322295607865276325203195077481888731221722936403678081151084222260916942797859705918884038608578374683257915984919766054478120820935977939226904461775811008102892353828775741012431524277885407361062995676246969484589932632258120908622599081063470621502501718606814492741380487968036961861725057287702972530647649477718150721300117329546160165937978408919493303447416106524086147502886467187344110053925092861164955421331261650708099717896668080427508320269097982068577609637572057511287944723014620781158306007542750585177286968919286355102528847670640011958259196546046990043393915780621208641014940969563469869688103991170626390248539444574153019464823928831238894499711500433801308603569167582022353406888224078979792789421742089650607582629409645537122566053751383636365527324934486471156300222447823981324249034703283325386021364457130374194105789808384736157672554578698895875912078471654512958447613234962819264360547233852687247401503250569842593934769390004332050579289968367896560920348860871337628595388910505781168999138631827493949582997913080653109339477772672456318939629595294308717802197431050721981605497894719698824972251478274280916404358603227769811412784872126665038017807676872567877165371813581274691366098500716886541977840604302238775178749474248446697236039731564288279167906439355088419541910239195754704900683639413839362757834656929773519505411984060992736722953103481004559596173917823068571579769081781747682918279205674458693295995844535926416123744005072329342273206558303168197992693632654035291527257054470940424364511136687444251706697127011846839505289343155218138800963200255676005212067362186294633249369156095304037595646719603430086355313338584167469484209576443293575497146324243839893257118071476710868745140965565171383451407262218027748188432752631816399627242083461616750495166215608238286578699711752489018981137418583484344580619450985209707352258209824891591773301784851207302335292136258390209073396806202140269847210127960787982704749361961094504782453332114988183564344931657919042489986189653155151833219824869634321933497378817567221588728436646079507233433240848918699445823618047531522814819718575358117948461364870012601648431763728677900226188630059325098764292035988140833314668829602680323672966321573004182503658306791696348988435163882626003953414046935113646997575857901356801357586631948974834660548179626542643980715368551345734789921858484766298807322729621454344925763868696196693141657936022734739471977164726094037806990870825474147948363278425147112467661747898241759937889513930592548877165474938887341332132143287720225708209648773394609320004644267307866139391182389028168647893292799415739020062336420404738292939814381159258295174756435113138899660995472897426639095681483155957130203896436388614850315981898346442652970511134861738980036315776362958624720663266111677259829287858892247143104581019218088833551568584889645347956796551913648342780944890240019814219763645890320402030613000622120070269471438872188557119712442699777382776100679048839031808675240760742383165224359477380785892800271992696809256971645204285289801802514849649214344781894350278860986103852084264184487041438873195525541203697591554708452799095508659660276083997339147221545773737996306495515171643227522300910235853219798197402208823403390262615541387625460882046615842256215999980604906578621709061290241114208538165696733404845911693948141588101898471980957643356092138956374335976018039922517966381391001061832219972968198360779903402775320781752783651642587699826663981108744754117484632057470787464131218710075484926441353438087930766914715937378590222097735390288979707263723273962467076554081136093160922114867105094152252174378810194668631666437904817725569867435531665402449689267220106980791314471439060735576241993922367151895248168535231898214047834963890417176466990005125035174010417685274438860971907722353677847218796112037011887113402470966610701818152022928991872600992122238469697644791815964426540822634399774904722808846379549701345590306163298543574705753813434046174014277124018896837243309373516974491559797457291519616419356494003135300460260278395495144663027424740740954282029165436728020333030829989782090232548436932736507619189506900006513815012555065237877566647959405220040621538033963398690115837126992363340927943377429570535426981052977827562831406268887018072171487344430639487453541869329185416645274808537364315152898043502512370359465502738038102237880729436628283558188020682084504048113914211969156396593053479194544013867653291213814610292264975222333213936046337933423765431127788168428634456641489505210105667868834120

/-- Intermediate MT19937 state (see the seeding lemmas below). -/
def qA2 : Nat :=
  20094370449857881399313971722656720395072347793131636559226960402932852081647900806903652572791745697665223861917475718582875089573410509601219161601566606724105233671263183567837475934893736955197973012145278409338522457096742836414722133891503491268615612760268373383956612675553362717170141856173946155127490562653467179768127627299140115585082039916317462562750822022336188255343241046806696385583128301779739996776109537346776148711783759059923490252061051214063202697535205910790193265202058395352322318782905085508154611837817423869449873728966889018139796229778122469858483925550795818777870023574381581608493552428806948451534351156273469959209550252222653707402204563556064270418226547565590982720243092571279237645201850137559538591583068943410724142276511033637216963089957224256499810919359622012178323360476317736084123672169816446853636989662823719926971431764856203426571646183603843443947246761394517219041703742991274431675302482425300132242011855765218245400209372315011799424550331128792397141093775108764229276601188081993853298038873261329186034906070891080021539282571542072010252383223743730312374638779088726152769719714935854357404374798191158336881604347768910511020612865789290523120222006238269851877321960122336913782710787289711932745517583760665326338999436700552432974960714222558854326819511871896621673938302821892355186402746803721536442590681852557119160268322295607865276325203195077481888731221722936403678081151084222260916942797859705918884038608578374683257915984919766054478120820935977939226904461775811008102892353828775741012431524277885407361062995676246969484589932632258120908622599081063470621502501718606814492741380487968036961861725057287702972530647649477718150721300117329546160165937978408919493303447416106524086147502886467187344110053925092861164955421331261650708099717896668080427508320269097982068577609637572057511287944723014620781158306007542750585177286968919286355102528847670640011958259196546046990043393915780621209646014093822845746543361317971814657203899965778201666641164737096156209484349724938513398415898938050403632187575729470667691996398158894560595958866821298984656856124335450718462119994049648636239624779227247936250639879598198825608187699828708715264525951110133441946516991316445223166970815894009999788178215215031303790105783150559967827872275268916302801346671863342778571463266001229838692167890520435109704736961607241348824391510142267590555031458972100609840939425168606973906451636031992249402172527930570094987686091941240450765791737000884586792475346882757452693112770931870287291469736259849968829119701362414692984837651974166046992068152928866458792092517514350577807667044627470210996586386145983416740787625312534267290295131156434439500938090615490728362121365267054058918681193080017678090356480184037893185547917471134814001291664914469967020043971143794592297004990573537590431855286758605009098261466644891726367682789844877153991890939124530903723416369913704640944441752901293448325479453487489758333508327076931359032386954622202145887618921469009655209595578960554372904634413631853365898857036894694547942565498023425487501904682179164877297356765404994210347640337200161294083958270300665792497866062099584720270322033198231815388275086933330047228130494774757604027426843633039986735659788912932682568288562428766682670414778301732084443823974280826508689031910994842904840722310784099150889714541896093954402858601927087717177450759450954909152614185632466472418311254841989352891309891672568104828630585922038018158337186575613831976532551927635894069780594133300405840531976204517264527224939078709704073097273629105309464896051647846231515432097994699735433725821268072923091926279529413931200081160285447834294119172130672167685543304563377327114506899028430111905934089343929795763901067160992851319592451807250473449059470541994998944682507263533363419026990926101378104983484846676451425794431850355807486030849518537421346748273849502947728624732981277445551253143589262328780446501018570168534142402731811694953585882231219477979938411545594434665471985815587594420313806774898959355912611277823907478900221069965738780391739718627312759015254477918968861743331968034058047625934650072944371862075001233546801207260654957718185416344982581794882000610240300142999073910472855788855840258053963185641476266447349989412439399530621945659862130430276501635270132297302889758671315182644009229555404693358599741339149992766481195479882024404174673595553468960464766637228451105003245365656005193059930764753811936151970790434713263641873456297483493005774026548756105420188953217081824175712858321905561084923653447004928918387130120676691095763156221653878167542582769935036952508003849845754033128053632466257666452473111063140205561262546248666735919499750731782366011364181153710794911773513337731470555502920180231542303392769394414974333484282216313000256025540577609559407454331557120616894972317848802120437705496605926862991014454932470021391327389532822760398752946254862047869408800257751612199656010789357748667094305898959362728512762664676563093222261162649489195201483235935641392308161913642504696769494644537107693033386804602024637960108938958524954555273467398689977020511597160723247854580827989837612817747699787759574249424496228535050941041828654264373720254444014444070427660287000572238955501602914584680601717972272759992315476075502118575928897892739600036481600906084858729604880938758444735112308520706897608819620496787123552589131242709485398306225644194117727759399897620361589673480498152007422910510184143885595447932656951016123995742742477922777091247500681003067825964542267209221255431322788303826310172611306025297431180326133877298693197799268612843478240984707515369365542719741262023850396620744026644133180005713580813658426663089648274920100639789451485022283691436200221338874747829967112774147096302134095714125809860719362790284446117534168406075327402706328815890224866307586934640932492745070146213128065072704604616034777440828381525588296

/-- Intermediate MT19937 state (see the seeding lemmas below). -/
def qA3 : Nat :=
  41424561382385287066057104433668308874352852161902146955329650164862172245312654001403160973652882138667301464189819422490199791055658893221691298131234060804592220972815688116906562959848355703486195727909616576921407433785134601566699202007368606546408529471990408333944255698568220195079455480869524149339480465894096895120863172542228585180657170489975333170428699734163397347192325963125178781594584532382815021674016406798471410515435268939076172672526294215849458511155689366398062308439398383741398299490417465101360185056105011656300880500223662839051695300924537376608031463469812568852768439207534785726195787050271339351890739146655651105351832631973493172662426070615400675080408199627703755667482351411553894883203426077910229368036245525348339469632666927591902602911263660411479537531288328597172135824402111595133573715296007710394488457524460931645379571513869036169561273731990233425196119241309166057483631610178009006002310712625925247847993166499201434883354763943595469825830756729416668469430558923043810504605684001533211793043679541659571360557506788825963279054883581664211003805005205702073908446013703783541602634456307736194739631561154186250295628506577935706917461025740556708809460777085092150672554350787750475132746443070566336334526978175309422616250054017473484247557905983604913330547827579612572088327826171121997153942652184471026322216211123629240462437865605166520564559994565561899078172481505315036778887208011169625071330650302937913342878856329145999030475041999090561117016791174209894319161211801773792670284838365424557934599172267514172662811892034540215768707206081624104119557574820567326761186898952077883518542469834127228430429751979738510269300138230776841687004030874932503464333441632158389819750597669487021152170853427638212303728139988512464056146856544615292125949369974873001297745787141864516564869736257087647009251926747790703555922241564728840762943172700847273754067084255299982202753288629431130243541170009091807897979155321703585507419990206241536228859744563365226858935082170755050065486676272275600833309610089374242866948076692770008078644445519268543182900632371741369886354463682124198971331075964320751456678849861867291142824151526241397688473261494031722232248042946791266487456312836370828815182732691733494637339199034921350098203165153053935338847369321907413408805673665919199941093476618255829513056570994290375518751119097461271538125337488615763597783555809344598355663677872268448902935265921342828065255727570144519425035275984986352436484950438185855893080523219150623567165459297589570965559107489726843197721178852560549743927180455183631340557379657747672960848193371590300277101103358666868073263157913643619782785183242166256468925281795053286794394272448681218264794990612168983716331923257756208774024973963044125796052527186103782040318213817176279388602310789102587463585470624728961883203505613009567533792960896643519748074332146640151670002784450509889473767536160434088779293210401904894551269875668372174737124476191238571463202036366105339509561697499030905298853872670309255367332880358240869723339563160157179675429472298275638149428908112022569420210770806650890843900234149263031822657627695837816720057353842620997118392685905259320138717606789687076959534529810314259860115674553661346988751560447537340074455552365655312639922774674301252283912954603374212455144182817486885982510309301985291420655929953036608015931761049468500757414493406617763780987591764743659382346555802632136301984498818249991024360572633473606231268195966203580688502427741971405313689263657557396982342261988113364439218947032029162587474474546858452266937388219915597463556340104160153871321827483015364237098142898924238423507641985344512444854279712169429061804669084270086058306056373907367387736047005337684355747280987275556245881584454658652269229476590821300319960250875300769424654071129621455709545100583582721427729258363116704115928906609315525783624337955677333292944484659604970007762257989609287974757057483334652661015159268801293881815463826371307533279001119265903233610496781135250173747339472278060091033016611896096230534697638302629077720932710224276356156480509581077499225660337829068482950808168110153904191813751555434847791975907516576728201917800824731351431874890883759722609344744219034142192378985012308817086795209647871944676661469015139640129720560401015886011896195408084891129173972591155962489106870976831832781716351741256462033001310641861184100178616076181484005551582578818420472906059633566523024439841068449036248824360617740143685832322065526109783267895467489101345562043938488304386426950921681844906246502737545216455670961936332302434269025562986513155640962763796880268587123485214676854917036134871118507990936443572304518827029170948995602612216262606252907840523135377972515572955445605080539730120121683723713566959427334105827438722602571539086642918678767176979863719664676961066220895209875933584216933388155770638912215834931953645327241707544360334780136028238931201192651797162803539999087807094693700325316897203031255913950027956388699178794676878123168174938867890841935142002757836821743544037139390275214232156824122474731440531307455586507410110488389981476428893370092277582570012404291670935397576736975733025971083425420888525204872019792726942592848038120942128864499369670575387769913472385007578004240842582620438555826567986790662363423868155312417413371218751070387453418633676368967497067852738097046883555711360838688312526004347636852226792917653595969451846784540916122614408790458056715179230209966251163636464129774766429716267616489639074897607278887957579970413848741044418669629952028061783086789047287393388949325929939006725402807765145479518930198267470262695451867167445768541457889829178470839870073685109110545069342176008221623442408883582431136768084566330209030191205607737228625341775444342265166569735027987834969209694852821088573384237437263155168258830828218777617429796888141994704536651899688807178270574095197924773011022682

/-- Intermediate MT19937 state (see the seeding lemmas below). -/
def afA : Nat :=
  41424561382385287066057104433668308874352852161902146955329650164862172245312654001403160973652882138667301464189819422490199791055658893221691298131234060804592220972815688116906562959848355703486195727909616576921407433785134601566699202007368606546408529471990408333944255698568220195079455480869524149339480465894096895120863172542228585180657170489975333170428699734163397347192325963125178781594584532382815021674016406798471410515435268939076172672526294215849458511155689366398062308439398383741398299490417465101360185056105011656300880500223662839051695300924537376608031463469812568852768439207534785726195787050271339351890739146655651105351832631973493172662426070615400675080408199627703755667482351411553894883203426077910229368036245525348339469632666927591902602911263660411479537531288328597172135824402111595133573715296007710394488457524460931645379571513869036169561273731990233425196119241309166057483631610178009006002310712625925247847993166499201434883354763943595469825830756729416668469430558923043810504605684001533211793043679541659571360557506788825963279054883581664211003805005205702073908446013703783541602634456307736194739631561154186250295628506577935706917461025740556708809460777085092150672554350787750475132746443070566336334526978175309422616250054017473484247557905983604913330547827579612572088327826171121997153942652184471026322216211123629240462437865605166520564559994565561899078172481505315036778887208011169625071330650302937913342878856329145999030475041999090561117016791174209894319161211801773792670284838365424557934599172267514172662811892034540215768707206081624104119557574820567326761186898952077883518542469834127228430429751979738510269300138230776841687004030874932503464333441632158389819750597669487021152170853427638212303728139988512464056146856544615292125949369974873001297745787141864516564869736257087647009251926747790703555922241564728840762943172700847273754067084255299982202753288629431130243541170009091807897979155321703585507419990206241536228859744563365226858935082170755050065486676272275600833309610089374242866948076692770008078644445519268543182900632371741369886354463682124198971331075964320751456678849861867291142824151526241397688473261494031722232248042946791266487456312836370828815182732691733494637339199034921350098203165153053935338847369321907413408805673665919199941093476618255829513056570994290375518751119097461271538125337488615763597783555809344598355663677872268448902935265921342828065255727570144519425035275984986352436484950438185855893080523219150623567165459297589570965559107489726843197721178852560549743927180455183631340557379657747672960848193371590300277101103358666868073263157913643619782785183242166256468925281795053286794394272448681218264794990612168983716331923257756208774024973963044125796052527186103782040318213817176279388602310789102587463585470624728961883203505613009567533792960896643519748074332146640151670002784450509889473767536160434088779293210401904894551269875668372174737124476191238571463202036366105339509561697499030905298853872670309255367332880358240869723339563160157179675429472298275638149428908112022569420210770806650890843900234149263031822657627695837816720057353842620997118392685905259320138717606789687076959534529810314259860115674553661346988751560447537340074455552365655312639922774674301252283912954603374212455144182817486885982510309301985291420655929953036608015931761049468500757414493406617763780987591764743659382346555802632136301984498818249991024360572633473606231268195966203580688502427741971405313689263657557396982342261988113364439218947032029162587474474546858452266937388219915597463556340104160153871321827483015364237098142898924238423507641985344512444854279712169429061804669084270086058306056373907367387736047005337684355747280987275556245881584454658652269229476590821300319960250875300769424654071129621455709545100583582721427729258363116704115928906609315525783624337955677333292944484659604970007762257989609287974757057483334652661015159268801293881815463826371307533279001119265903233610496781135250173747339472278060091033016611896096230534697638302629077720932710224276356156480509581077499225660337829068482950808168110153904191813751555434847791975907516576728201917800824731351431874890883759722609344744219034142192378985012308817086795209647871944676661469015139640129720560401015886011896195408084891129173972591155962489106870976831832781716351741256462033001310641861184100178616076181484005551582578818420472906059633566523024439841068449036248824360617740143685832322065526109783267895467489101345562043938488304386426950921681844906246502737545216455670961936332302434269025562986513155640962763796880268587123485214676854917036134871118507990936443572304518827029170948995602612216262606252907840523135377972515572955445605080539730120121683723713566959427334105827438722602571539086642918678767176979863719664676961066220895209875933584216933388155770638912215834931953645327241707544360334780136028238931201192651797162803539999087807094693700325316897203031255913950027956388699178794676878123168174938867890841935142002757836821743544037139390275214232156824122474731440531307455586507410110488389981476428893370092277582570012404291670935397576736975733025971083425420888525204872019792726942592848038120942128864499369670575387769913472385007578004240842582620438555826567986790662363423868155312417413371218751070387453418633676368967497067852738097046883555711360838688312526004347636852226792917653595969451846784540916122614408790458056715179230209966251163636464129774766429716267616489639074897607278887957579970413848741044418669629952028061783086789047287393388949325929939006725402807765145479518930198267470262695451867167445768541457889829178470839870073685109110545069342176008221623442408883582431136768084566330209030191205607737228625341775444342265166569735027987834969209694852821088573384237437263155168258830828218777617429796888141994704536651899688807178270574095197924773238669312

/-- Intermediate MT19937 state (see the seeding lemmas below). -/
def tA1 : Nat :=
  41424561382385287066057104433668308874352852161902146955329650164862172245312654001403160973652882138667301464189819422490199791055658893221691298131234060804592220972815688116906562959848355703486195727909616576921407433785134601566699202007368606546408529471990408333944255698568220195079455480869524149339480465894096895120863172542228585180657170489975333170428699734163397347192325963125178781594584532382815021674016406798471410515435268939076172672526294215849458511155689366398062308439398383741398299490417465101360185056105011656300880500223662839051695300924537376608031463469812568852768439207534785726195787050271339351890739146655651105351832631973493172662426070615400675080408199627703755667482351411553894883203426077910229368036245525348339469632666927591902602911263660411479537531288328597172135824402111595133573715296007710394488457524460931645379571513869036169561273731990233425196119241309166057483631610178009006002310712625925247847993166499201434883354763943595469825830756729416668469430558923043810504605684001533211793043679541659571360557506788825963279054883581664211003805005205702073908446013703783541602634456307736194739631561154186250295628506577935706917461025740556708809460777085092150672554350787750475132746443070566336334526978175309422616250054017473484247557905983604913330547827579612572088327826171121997153942652184471026322216211123629240462437865605166520564559994565561899078172481505315036778887208011169625071330650302937913342878856329145999030475041999090561117016791174209894319161211801773792670284838365424557934599172267514172662811892034540215768707206081624104119557574820567326761186898952077883518542469834127228430429751979738510269300138230776841687004030874932503464333441632158389819750597669487021152170853427638212303728139988512464056146856544615292125949369974873001297745787141864516564869736257087647009251926747790703555922241564728840762943172700847273754067084255299982202753288629431130243541170009091807897979155321703585507419990206241536228859744563365226858935082170755050065486676272275600833309610089374242866948076692770008078644445519268543182900632371741369886354463682124198971331075964320751456678849861867291142824151526241397688473261494031722232248042946791266487456312836370828815182732691733494637339199034921350098203165153053935338847369321907413408805673665919199941093476618255829513056570994290375518751119097461271538125337488615763597783555809344598355663677872268448902935265921342828065255727570144519425035275984986352436484950438185855893080523219150623567165459297589570965559107489726843197721178852560549743927180455183631340557379657747672960848193371590300277101103358666868073263157913643619782785183242166256468925281795053286794394272448681218264794990612168983716331923257756208774024973963044125796052527186103782040318213817176279388602310789102587463585470624728961883203505613009567533792960896643519748074332146640151670002784450509889473767536160434088779293210401904894551269875668372174737124476191238571463202036366105339509561697499030905298853872670309255367332880358240869723339563160157179675429472298275638149428908112022569420210770806650890843900234149263031822657627695837816720057353842620997118392685905259320138717606789687076959534529810314259860115674553661346988751560447537340074455552365655312639922774674301252283912954603374212455144182817486885982510309301985291420655929953036608015931761049468500757414493406617763780987591764743659382346555802632136301984498818249991024360572633473606231268195966203580688502427741971405313689263657557396982342261988113364439218947032029162587474474546858452266937388219915597463556340104160153871321827483015364237098142898924238423507641985344512444854279712169429061804669084270086058306056373907367387736047005337684355747280987275556245881584454658652269229476590821300319960250875300769424654071129621455709545100583582721427729258363116704115928906609315525783624337955677333292944484659604970007762257989609287974757057453109832233765281227741958998633647625555993080836694099609849389393154746288843639794651270288843999319848006453447723286078206721320291439717956834632739588760620718171453113117320377318141355626791689204374759724910318479670527250470355365935479266535222132093173300648431441028458268868686595906107512847224898957252658494543731077135376573804181719069973659543026322480139130854409158835319341388519155688738157298079135964881246531640046898443942124627774873325347387763313338526307300844751677736249201733707923448294552753787519469494476634409632529125355448346809757542647781423531910715069439293013925076066021879437809797042971686680015697604987890214041835230102565986209540295614777167344229171903641183167278478787105562817400733810281745596698784640602517248257177492863007473566538429812105747733179588535305360992546110312549202182477371975673073294985183349281268328191196909431280571196443723206477816131673532897110413777892320881483764239378109880818958085398498383613007673468647664369886668482086033331000251104158313566596795913607870846801283918441223854625801609791559462767757971105191508624790710966616882770066238504672973985209005530448711149934117373459197835683158952871685527411503816878184592997416989595884236658810709690338485420026682507484801651599204525691925451141460321240739044816676751800601052194214002354060788582613609911111076501805061774277170625057283838239270927727208104033734085484152851253527252613272744352924468750900395055318148254040231697310403720655437419884821180039522571697005328635966495677278836919119540945110175849049104886944534286526425271288735299230977819855847969590493856747264749866232083083430479156607041218473344174825708156869155514602753120666669479715494326188700325213034698413360637328544335021257472557426551531786217742181357239999729294089490831053726727703943594103872600758271763050265525636291779990339097028081069567179326677886057298471957856133574898699456260851756867162758959644477449702836600390184537426068444

/-- Intermediate MT19937 state (see the seeding lemmas below). -/
def tA2 : Nat :=
  41424561382385287066057104433668308874352852161902146955329650164862172245312654001403160973652882138667301464189819422490199791055658893221691298131234060804592220972815688116906562959848355703486195727909616576921407433785134601566699202007368606546408529471990408333944255698568220195079455480869524149339480465894096895120863172542228585180657170489975333170428699734163397347192325963125178781594584532382815021674016406798471410515435268939076172672526294215849458511155689366398062308439398383741398299490417465101360185056105011656300880500223662839051695300924537376608031463469812568852768439207534785726195787050271339351890739146655651105351832631973493172662426070615400675080408199627703755667482351411553894883203426077910229368036245525348339469632666927591902602911263660411479537531288328597172135824402111595133573715296007710394488457524460931645379571513869036169561273731990233425196119241309166057483631610178009006002310712625925247847993166499201434883354763943595469825830756729416668469430558923043810504605684001533211793043679541659571360557506788825963279054883581664211003805005205702073908446013703783541602634456307736194739631561154186250295628506577935706917461025740556708809460777085092150672554350787750475132746443070566336334526978175309422616250054017473484247557905983604913330547827579612572088327826171121997153942652184471026322216211123629240462437865605166520564559994565561899078172481505315036778887208011169625071330650302937913342878856329145999030475041999090561117016791174209894319161211801773792670284838365424557934599172267514172662811892034540215768707206081624104119557574820567326761186898952077883518542469834127228430429751979738510269300138230776841687004030874932503464333441632158389819750597669487021152170853427638212303728139988512464056146856544615292125949369974873001297745787141864516564869736257087647009251926747790703555922241564728840762943172700847273754067084255299982202753288629431130243541170009091807897979155321703585507438506924665769182180739252792865063865239952599028566760535964612725584040929149788774047067899125162088046371057188212737274705955661068522805568092562381247075056979336154500189960436941849873741922859979303229415853529670213867575098474385459593123224827114578526343505545741134656379971997771614254758031390801963411087736217082708149830948413435498391669775137624127880673136217829031176206933288338791933916925848270979715527724860768699138274620030433400070794983253931606863888613002386354598548867853540036800612843353850204247463176672918977485916577483465241034733522920113517072100968491996657139307368101102789127660068588940636611268106682569272683079814641551364719989876038329208640325304164229472567666087661443101008085835855308481703936988111676207336031530969484590117177081680094563221108436423255961118925030008262785687583889253037349675863330226145515016521411792457238207579136447794809904710591429236966646204661219780824022914056792389345035584451698494732426351878409849961856102613908033376866017754970360215989745315207106229905557611172629070697867764669769641809790720397095503165331970123689185005124195015670123173525613712994400359704233456373532346845742170883730401916496959821797307586077305082114373254894915197539264586622618533150778699006711917967766082416391275440728657678638143383371570436380608850239488766545234227334474352065697232639291196811099330866135942055218018890307408498477621109920648247041542497197000783019415458775132348052442933338487123053709151211426557885131760502011875812197958526907161962757319331228722450825508950915811240627344844925521965759924191702757565156516437114967593116767228379444144838399506421227891234815492139373770935840012013096555315242788459479038118741862600930089035578529259725620902141718032547238454826740571253632426786423980261662167548935529033910012233425677366698966236739976407288115429517807807019891093697074273010250509496384113792806878693506879807088065602124727639826230877452285130140330734654091663720822035767564415583085509402473273762164177988210935701282162284762915485871069542365751398191026502056901517613416896066161449162161578769809027699213047169570020232512667416831807855214673685106155355395783591903833994893097936762769520844163525349160233552642411081244585995026194974605197485080747750986298402296503646833796960270176578705506388006766561198028759586114026811019003773803471312928764020486147787576464244783975482010476011279094801621034343805688826925136331914893935816187456723283882505840577417720739656462231241781263749076294344466538575341150436845638576716487117815795022168964771993680526935333750809169353165767621620698487950825823561936701194937985532081363795506385307773879493230839810203562183938492673764152085510556632762016567887671546217982974026100580670912222799854630826901768238261466822509096824203915745017265211834021327968603859784110754696775327908819645035707125392514481177138625684276402677681640378246195110362364683905357065413363333931912163492312932592917700319471061953477576087826862611533635315817255251550257838055493966098186518661164526855601232818663500028521279653114509179427056104187719601652116257082072877190238928778261545591768856725902014888887634218230919533762245458422229782165003108385376425597617087275473815589173350276318953566860058515181420554108443977282474547374957932779558565372225006118993329124366010392449803809071046923459682379992594978233013242138734771561846388572296591171850494822636787097503806438036388585178663218099697288010209155902568468855044051938930530267231081232212542658033012249564964519846876048707785637253122403862753919751569289442228187622142445003147245553740675384780623498617287302181623002702805970930819682214806414744568091593359655337894741498809180845166850489943868629513439912255847670539082528000635096652293796554501829052147903963460020482523964181619654097127781378994298057237681067381369441166149805656701630058836268059455909537089290168863552592777706261190282324952056796

/-- Intermediate MT19937 state (see the seeding lemmas below). -/
def twA : Nat :=
  79261319452873312858010630676748453564827476719052172388054824508118178966065183370636127708430223645243067992962361460327999528241668090270746905039064195022435908375429587229894121976271766559064212192599089516644612312994224438952253278977572729871585494227933160174244143768766093988176688736118742975299046704835715997518189634942914009085190132739171609925862505891790891341113702631306018788281111469018148132963921441179428404515460366294587034838625428320472259530011653099506434903200119362089887741607370511782131265664078657069620064720516043073333219838518156807141522436950431630379914737996448474933542172752024317846995289265886288306487602241142310951417243158154157936456317762896553219625347029456749943845982016832390447515225284165625729239743298997963109939995106449007410837411867716484929199468912057575155699751838568068103394110085030796311814299813122954086529344828406192566104133683586661008583470185752533943467767149984854383290824456306784170133525578344226935669446293118754240930194312375869355362148984509288180064774709525308135588864145402499774759591516028627797432903815254322659814332703660083073306280642339419538850094840050191179282402247405612087496703784611847761833271425769024417678069791536347848302678860839365037720918460701452047492864421772756548442276100566530380700435289023979000926715580989112593324296926914088783535843046636593256272434592799875919816155994670738623715662050655657919565773456380591347839956620708791839498857068497729976410074093532167225277039083270786591753694664504304024156427807905443636021988630915965108734788015095047034407334929425633836626417353936270055292097506249863523551747617288041358396602284934641461635230699028079872380693759571771286674108219183935573760431328747464043142840568103776993670837793931142879557543453044490729804395497988359231641003924932876829202435228141804897873702852503834904195581837416036608054233971139184851950921816484698427499154590804103931073165371592679049281186034558407887327526895469054962205268345368025330231643533437999872142454692712670096395991331006966464578051523325403367272520708170098012081558837349054973439317224619623940095660330045035929122784964087026981313224538963783225860644484773315078059351974402916774249276264837282515492638353250468150251395954885368107433196022240983941126253070147020409315000078969810841600884069987181401376872058879613040762229616784564459733136319090367507789193383622283424522564663053276818398272300446925007711141849506940024035205675731920109236332603721605436729759828617827946654039172844760513694351144127496410105961206904215096191194556091433180536816282671687766101658368894474957219909578922380198901867025267038775460424923892733538387509414955907591614474586915271612117700859181842811072110130681641665257543629075601252304773141911015143743155968109410095281548265301681496914091055525160651580651303402510322434741688260689778282094508810325154980384848597040594849122043005812596372090154063672559369573102909815690737709850991647828885182659877767892672808664811487726489479160847985816622154233447025289989482735709560130420017653267220249957984469439156669331528231511924604612626999229132567956549208512626644835222563866008047493831829661419046069220313948693976569401028816042499914840144615844102742620305780072691835795269910194036521183202997212705528081836233731116201782742925260485805307761090699339009379666867240465783135924922130632845085703648328866461545794221718126727789702505598906686254462241697879843126851165101413193858689006452028653461921088120507151634184664785275806460929968103362893452990185235887074845835137399363378900925174692081413686079300029970165793809691474471598623009005790141466118792116470483240175184987675073679224715148758160392693699732713576421977556572517685621065809383696931187485604982371630951469718153886954339727339687573184937648429652272125477395321430302276867394790684758676965622521618252011246291016513297193709506955901265217068739953555244153494084776387246984335855758414584688184504164403078899285757189516034365564297165602228443487166091555505194680031578394895445871715146056492496691385524976554138674978030465796211398554456275377941774731648994205771694906067590508104751798849351344021404869852530142753660485318187063180698523784796784197320189308359942027977000572760063287348526286018442790106347213359463466791134752752784447434639901740764696339192622546363142879029862215978498817390532770453405026541608644324914218889788309676524620613259703568324787690616791061526133712950926260525956311107951126771467351774008208096625844364140739793697273804503290584681120373854897598493382669349935018286862368876034333548881653968707394427351486878011417855126717140664403317401389993252526883712278244846298099394324575444730953870774625663413621990298842743269643300429864967029574888040287557201454202861831488197449138649645945071067093238888301011294375376360803264110587779595197123744997945231170440026536289949498126585581507157155245073916878715826287248260084594544194536752460301046198386095426912740909832104189033179298123645716234971055791325992530915373928856167043829484193945638939932754472480739618884595172086780202478649080110318528056923606955908514602713946690436698706574670128321031418341029834849892466148943674286565277645726914103938661282029000326066442307729485795626813389963806581178324746834548699659973705295714237361675640508753013054291603225125429501650877777723734287015806377226107847155682120367909430404608699680278900609830882417596702236538025925088135181448819029627277794193289142543867075896076481213210397990745291786355550361107818539840509238981923443071718426026789767973856069702485753409582230381107035881799121253191997150732252508443410687184519833026981991285013731200477081728479137721623522408318634337321579322214024048772930509960281051309027835690596844235084533036393727081068094455712115228926407765555625821739652090708932411962036518042795179168940770058075408618160158897678929986524

/-- Intermediate MT19937 state (see the seeding lemmas below). -/
def sB1 : Nat :=
  62685089405509111925910797243914719854890513935494713084094713797279779630627496305943786046941309007281293105221577504421353501605599255248785149356818580886163074212016138319710181437623915839386196989339984175865611290932895638485827512283879634622589907034847096838980553398268338905605705315464924834076955485269257682765843392777664062904318116756644819538761883164862381873685805923051342196114892111881287659915424456096361326051748180740843339721465950121631833352165428366344241754810081140762710579390137795215443629123183303201044796731629341661542390258966032612552126580439913324626563213547393121217728067632048719897064596438939163041106934301355643192260261867872030533878188557727018817797219012064641958276099544136480610826250078810896212505254064619595899307426216931651016613164877613570296351724055264357110051005104450572173606849938075379012356137114572525910752676385589168436483206759652170097284388598518122222819376116616668668677988651997615236221431416155794821321118852088948452164682783715959922435191327367306488124638818446090532334864386359317233873012285172875896330714873881780586230596002778688422250420590175698633544778262136505069053046737202152515000629854634631225453245996997340762744567896897683212149150732909707719966588817675821630380251456266588599804209831660991462715440400663143017564651072677052296295930367391822676512661642282350234567553218318066651318510488484545671729568971887621684270732981974442582657502555066960418690332945218280990034155505553171409775830458482159957769211244505225186771766058316021949327301666418107251589707938065072144733816368743637495699897181007119363672460040974223449086641663004605507793014252452324150238463715514559124307431648478948480649031081489229583165223570218974125422263886587593014744330199975749832650568652404661542746543584685860761547297457070273167102314576665676644281998277713093924236551494770138725647883566971887853912300960949802636372591951717316415323846182747445131420005722224687602711525724505110953736568981699982016588947035894059736087136235396798804019434387781559696138411966704777989194870090051835909943079457649936020314680876367897457337488804889342331824364904005266943816631681518612047693872607083945336048154993001716858914072302230374294986610531277637599664647525761147514008899238689946802093944865612982597431648203028809043429562401771290925843222821220221381984318518256971016750121270624021542153515130386081256853244444367484914891752438843250797295149886721543902585582757118492217204960123203770309672216674331373413106027454841661967870247822106376003696537006476355273043676224973894002060133928765135363584693312631060562155459381152426642778209514491263275588735458188352331628933634618912177576995916817414488324819680108333628484452298807271017999262374749573133359090629722111402666396222385680310709557844049479865847370371052888681758484468279513921172987571336140289500145715018352119752770038578015899178947425013401300127437407370742417936980607757405410607208376626705322894782663757703548808362869195819947150150865798288136994832911439410269353230208345410503242199606186650417333579047848825834242257112060317620885151293421378661990197161958015730358249113963865616811805417654957899792836277351433146683316643158745577273742588847277405020330699298979666450169324546781433015633218213248018986767013905101885085728066131985273947793365444250280947765884488609302913437528001802423347517836456663978922564542901160075954132077499502061844004777463229898312792357201472450520034421742281215395838957029567457078867297742321364249618062920323524100796395855490398720473188748064226082130624085325443879193454095100721902723688608983702297802922465778395428510531587340343771240068168890882622394112252370643121994567113348850616779414952571984309063927162547038575769391208822294299053225776973195785292510157058775147687493667385905281728614066936870793483631104130486096422866739022254251631022238998824784309871214211336594149372534724827986099296002440381358386374059381739736729786473008055397363086062347451805816895091358506340020774874413741249081143770544494571189777317418545629702113881411592914606587381470074517604293145127850656201437909094627420415815645939195021802885684361230667884102640806721125014880157134713524840055339284867876834744849992753908122340808152717905154223758857147248048792652895713122982668274335031340097372631649185022141644607478505673385771649234184564759345220108289078322494684532421689792996284834601421325462187358719852242398693053203863456138720984130225350756279197303632245136745864071442920834590941246840217745731461630390828584895196490198346793028879637975524250129334025416086364588468313247810061068188905540501719377735289980475805558561421134529198074074500955299255046267377965025582011522514648719050581611312211203755871400496379632823258210001496668663186520294851456219430760207460973030305951397091845473606479516559550557526195458247538341023548789186948417638376423447643840750578671247619390020195437773340989462819496019955722665578083928081243053502639749026129766802526088319824947889996878947300155215260352952936060037586065966386842996155762577707002039492302009744539424835590632738539849002082691274162741626771102765204150204881828505076110856419076389899031476642537731284660810034410513695635792918841208725446548753923616660090558969144224327719606934122306869422729668200068910352608018982046310277221513013934128946565984985490209987702014787033235804583556375349987510469078073485929885152807262097881706748551482161362138804457936564045718047236996353792137342805965815276283579553988155908469628593312553120523284004578577044007351937127281805338607751760865064396808919877760561253474880224371329553778351860517227184441556557427052521047321034888199255188914256730044282209461742710439373281505348594286143653139760987473309441130293158880150705315874455581663994992004212501297279369650494333154928806558258946989395103390205745196440674550528350280213006306956269226

/-- Intermediate MT19937 state (see the seeding lemmas below). -/
def sB2 : Nat :=
  62685089405509111925910797243914719854890513935494713084094713797279779630627496305943786046941309007281293105221577504421353501605599255248785149356818580886163074212016138319710181437623915839386196989339984175865611290932895638485827512283879634622589907034847096838980553398268338905605705315464924834076955485269257682765843392777664062904318116756644819538761883164862381873685805923051342196114892111881287659915424456096361326051748180740843339721465950121631833352165428366344241754810081140762710579390137795215443629123183303201044796731629341661542390258966032612552126580439913324626563213547393121217728067632048719897064596438939163041106934301355643192260261867872030533878188557727018817797219012064641958276099544136480610826250078810896212505254064619595899307426216931651016613164877613570296351724055264357110051005104450572173606849938075379012356137114572525910752676385589168436483206759652170097284388598518122222819376116616668668677988651997615236221431416155794821321118852088948452164682783715959922435191327367306488124638818446090532334864386359317233873012285172875896330714873881780586230596002778688422250420590175698633544778262136505069053046737202152515000629854634631225453245996997340762744567896897683212149150732909707719966588817675821630380251456266588599804209831660991462715440400663143017564651072677052296295930367391822676512661642282350234567553218318066651318510488484545671729568971887621684270732981974442582657502555066960418690332945218280990034155505553171409775830458482159957769211244505225186771766058316021949327301666418107251589707938065072144733816368743637495699897181007119363672460040974223449086641663004605507793014252452324150238463715514559124307431648478948480649031081489229583165223570218974125422263886587593014744330199975749832650568652404661542746543584685860761547297457070273167102314576665676644281998277713093924236551494770138725647883566971887853912300960949802636372591951717316415323846182747445131420005722224682096802364216999150540267850641009735541264361259993043144293005247039315414983592762326136572986859551262580432712469400033166324657034196785443393745606800072145245393546357499762343908655490425243953469717934743359789267105192136509132369681183093879418962378737970871985959150105467641532511154463403595276950107910516629372447843633842828308434733584378637641663230091821971709136131359732608272897559437767678765320979917623759256076867327206428817132296941613528566377171713717687688816115933473061642215733956469265754389976435125877729097050595215894118865978265667193798954043353602580603634386045518150317488053432074085583636023060865296242675614757153953862531903504860914987877188904732581744730325648398677145214673495869565896917075842228712674691891137901904693197909594890868063818471834320544611691179125609087289597898816558778395785745840757935576159402098125948731879625363440447367245167306691737190688486296959219635542634964270395714552303186704255625320141948187195165960708547471320874717888502529647812596750258763208696561130973768807327837455464185042936415476456311693316394507146530212223158430201402632384153920442512382653218107690644264321976960514383198226278580326664098485042918116062154802436595542402783646039159832377168122874390941232388827285992580503991448391844471108372442428514573756726021207674517599543755232124082993259981967097355738673294679051840647900199064521802209614372552981349005009040715296196148586649690804588018756509416700751213513292474569016997596920999561960039779691437437673120604192446400763307163350878180607656259092675699447870049092313974814077764654290853433223411509484125478434502170480359465635624024532293797899345610890219784951592574333436766551629235369755651888029478486299506906396181846552889072743757012642029518221918722659500823985181304979028759437941870917111127158343278166914195487084341855096575140749578137374011605598174138010503334587442679423061993728440311651571532277526057801920345870531431165217237888224821604102146549194733928891432475069842835275918958954869894443239209318778078252231994507831064017652741809483966840787406571373380463802933198148583208926071003498325060892523942832769357859804452066621306695732507168577588546331446788445565825866489923329532388782751983822744504362684285148323268991533643421609926199276973281256985400684753835586209365494590129390711299757020351299554042962258789055188152236169247211066312138280389637270525182867492801070795841555327820158892156476672646314792061945859297809772999593243295374945047621361768081993507716651870590709884418503434073191752405424724109809729052260260228797498030002774892298491415282999823677181244427723650311915558598613167733865289043771203868650372849519564379061763154482986208499171138542811501332333217680166923403216488908973964359310455167766316328950461717799771359852700248732490498261418034527862551942831268038583754202002332776642032318861158106348591395696744714879741388668609101025096520455374158288457107148064840834094183333466122741440752468934718489597335939991764785710407731318995915895276880454016205026967589739140526880190838574513602262353458985722486438044359633013257264778658506157046528272183635535263784640485078331055184693685314102052087259123106036691028937697477297060081786671396033811755445915528332436398216619449978841284687649195530955544416350754412950655407909029327563114523875773762089551045277963628199370699990199497947689397198199357151261671168756919086525489113746876999229546788303159358179364026228033562193081841152906813824716348264535776810944468435436080422951997824832138418189193009752983577465130672371735419397414552952888906187552385487998720717626718144921528048098255398375697790612202024818040312755656717112740658245495650430960560368731378345958682491860220640910606424751893378827169843770909052310192232804697433923244609287319707530432374417216108559532657708357757053587294609820264593104581066236475284692426550071543859630070114861455862601620152852216154668715988650

/-- Intermediate MT19937 state (see the seeding lemmas below). -/
def sB3 : Nat :=
  41175619916433230337153915273993216636317286168703680332820898302921161740812492729592722441603767492731118317356287009478455758864929118803432160237106005020825083757002312520397792685882293279996550888713870528130849145527753041901201145419744147458621305705913010020152766553986089948622344643056860668539355566137233746233994178805727669659256817436100476432731519032783648397671297944746232245196836065358948417051175403709811845171675286549746308393319910271452759501153064245422875733540928765406321862882292318370078979285322060847368175292208062503039230395473642416263271704017772154977810404290300189081801246433889108484353761485981205685970367210675307455072477999338131679609657135329226980889346841457277569015196499728320926711721177050196233609130307991969644824894520006862422832177796968287617787363060321306594224462619844709639451275387975878427274635012012374104821011301612518833964611309689134558037634250773204847506840231471820811685627866168258330051169046734829591160255730005379665156181712240544756036482282087983044789751071796941837676374737382617868796953022949743827579496684624605322677296202688304610880720085635133819080618266704647405768522716410053315979028289246786119315298814843924316042530980812508629356995533769303340791214772958686658901020991431550557397490644292953705660624189112419614682647759011953570404326343739540573298428858567119580282971504788753042341440533431391776420323800752696297269204967813158992676652272664076305656022943169321156107406868131412765668073022784456041232249206243000683430957334754639975689576250482495741668801935127445085269179748781159790618013877320241109095419689236273848650455319203199506838263624626659050761779886518225048381602781300417201579457184559185658083355893123996821562919243362343040300201511561932594119168062423748454265845579052584173589632049536923846274906503168349567539042523150539734104024752812530810044639724233270542549814953437739113242161786351647270383297338287766455021954883863616525092086740994070169779300282012307875423762727928433233329303932549113615879468011800872051404747048713071094818223319835813133032296621159305791498158253044256129984259807706537402264050546657259420186268355763056743839880244430643212963862930889409403042944570823587017903599351735296358285647424370456961528016927718220089882276490731135332449376373908651255734034829829437594681029530091600622235055983010683824629725674793810219880054827768204446752996618204499504901130123985740364679881371545910415789034154586878186296762090387560468924406322894122540955236568188844551610545319393645294225255273464079889952370496489084212995508488228865152326183960897027481490867732568533035838475387814655067187437881038312856640797745451106911831863665383533106989782255799210321115702661422371079946924458040981133265506224115728298784218526483712611987201892793311143818478867634368117051338323397733791911458546663388533250466899798097624795348057531597913224364964409815899624722569553338757623965911337676517288197064088446431635702908004468156952934860588129264079601283153901163702796154151932614617653171785100764472826843392223033996401824099037489592160506721680863291387721726085485175536659153572995970168376590871363391947698958399008176797428555838891611942660755611237474734202816858953511148177851897479672809849966665838881100064172866363387467675746842145743950892538352683588724523078117371193344422243472197468335840143791501813780566375633644328854762512995081247104199681712715727570880799351720669937347877652265124619809035559379719265332176836601858788773200626010130842237283429616758888940663527676375052080318338345196828910154705337179295549806347989818312367982482753346323115876725423528628970759498622860542179266227524785494145701259075411557539320817634993082477076998770888022463553143396583714646753134724498404983486735578648036302217292238932392490824840670928138608609571702645642577012531268095491622409869328722245077379678949681670643452858996912744194300585292096867261866434727504126403563239980146373884183595087766805453238972324812221758549155741575421117223160881331930333429577814652709892483121359386980617065196394347955980584165405954425625878152720711600124524229135634613859594298998740392096555758502658102034691898960146261314367521497450760079779579717540258050563465463816534724156831791057382240491313286396700298827008232960541076687951302614519815668190144688457879981561456067883177139566855497787189155657437736717540583283390587955057714023976065581616652451477800682468206498514664508437760811231292168448379856803559262279189364624980044012505124704887327933648301110726182082074068228381439408815778526589760198123034262092479326510432891891547169693390265488962796256170477032860403808627484850065313941644534237913862792903066480609707007406047116116612152353077701278054954017399558272392258001878647126417436131083764077758204119430342226427774220730000838465299242775616990033218096748360158640514043807652088346264835274284471107975648692322493086029473743392658364284139875043131896912510943123691845927604929149430297247530835918810723633038546679910578286359199651146661950604932086450784078458885243356472951028889894079207482904704865466900806227861201740764602840652202686051308131541756114402947222296143258216173153681849112414586698395821110416179141679543206633223593266192992465905237172787445373003801768463107017599265603701175845553042327986995131845867930416827196106688452818148150124856384473019152119355106629645507872783541908082248274003568409994596629414681970063570329036769143402969313526764182923233649502574581224492212541747225199332416152666329996389075527750712594321646275314050324598814017591776120747230634476289797506726193652032176239506612161490385006880433725353792618795042504329277830803804550236761797024791482368212656763104078869438770937162455574459504928356054376763991825640240470347985464259288472851846672690384930982797027296744540721617129127213033485227840699555264047324533135400948590079530963

/-- Intermediate MT19937 state (see the seeding lemmas below). -/
def qB1 : Nat :=
  41175619916433230337153915273993216636317286168703680332820898302921161740812492729592722441603767492731118317356287009478455758864929118803432160237106005020825083757002312520397792685882293279996550888713870528130849145527753041901201145419744147458621305705913010020152766553986089948622344643056860668539355566137233746233994178805727669659256817436100476432731519032783648397671297944746232245196836065358948417051175403709811845171675286549746308393319910271452759501153064245422875733540928765406321862882292318370078979285322060847368175292208062503039230395473642416263271704017772154977810404290300189081801246433889108484353761485981205685970367210675307455072477999338131679609657135329226980889346841457277569015196499728320926711721177050196233609130307991969644824894520006862422832177796968287617787363060321306594224462619844709639451275387975878427274635012012374104821011301612518833964611309689134558037634250773204847506840231471820811685627866168258330051169046734829591160255730005379665156181712240544756036482282087983044789751071796941837676374737382617868796953022949743827579496684624605322677296202688304610880720085635133819080618266704647405768522716410053315979028289246786119315298814843924316042530980812508629356995533769303340791214772958686658901020991431550557397490644292953705660624189112419614682647759011953570404326343739540573298428858567119580282971504788753042341440533431391776420323800752696297269204967813158992676652272664076305656022943169321156107406868131412765668073022784456041232249206243000683430957334754639975689576250482495741668801935127445085269179748781159790618013877320241109095419689236273848650455319203199506838263624626659050761779886518225048381602781300417201579457184559185658083355893123996821562919243362343040300201511561932594119168062423748454265845579052584173589632049536923846274906503168349567539042523150539734104024752812530810044639724233270542549814953437739113242161786351647270383297338287766455021954883863616525092086740994070169779300282012307875423762727928433233329303932549113615879468011800872051404747048713071094818223319835813133032296621159305791498158253044256129984259807706537402264050546657259420186268355763056743839880244430643212963862930889409403042944570823587017903599351735296358285647424370456961528016927718220089882276490731135332449376373908651255734034829829437594681029530091600622235055983010683824629725674793810219880054827768204446752996618204499504901130123985740364679881371545910415789034154586878186296762090387560468924406322894122540955236568188844551610545319393645294225255273464079889952370496489084212995508488228865152326183960897027481490867732568533035838475387814655067187437881038312856640797745451106911831863665383533106989782255799210321115702661422371079946924458040981133265506224115728298784218526483712611987201892793311143818478867634368117051338323397733791911458546663388533250466899798097624795348057531597913224364964409815899624722569553338757623965911337676517288197064088446431635702908004468156952934860588129264079601283153901163702796154151932614617653171785100764472826843392223033996401824099037489592160506721680863291387721726085485175536659153572995970168376590871363391947698958399008176797428555838891611942660755611237474734202816858953511148177851897479672809849966665838881100064172866363387467675746842145743950892538352683588724523078117371193344422243472197468335840143791501813780566375633644328854762512995081247104199681712715727570880799351720669937347877652265124619809035559379719265332176836601858788773200626010130842237283429616758888940663527676375052080318338345196828910154705337179295549806347989818312367982482753346323115876725423528628970759498622860542179266227524785494145701259075411557539320817634993082477076998770888022463553143396583714646753134724498404983486735578648036302217292238932392490824840670928138608609571702645642577012531268095491622409869328722245077379678949681670643452858996912744186949031081874587302439401299127305865605463557253175452633186543543777724548409381789776069474525877527392978351027941150287444863095090441355537555040756147951574892731577758062136953254505144240356937532695205121657715246576188350803531141968102916998939984118101431100787120604158268587834517677121056312179163130971420043172887098724708256879122726406926532201719304552293115172535436855645241942093622047858060939319498796903381711147160810602049131419941097728732731881321362777416300981241172432286185303181555002628883184013900087207736693176354731811824390412165237162649373369767028355941185359567130660073465170574031113459555806917277752785052052742902645453152245989031031519098684141594045898785765528926121820354858548078710123652435056923332652812138830877538848240275144272949826545135800563131608770935852648646891722258021596183797435997832212843399663287542372926383128437221683883708808274394646648039682953509010210194673586067331435648380793276967021218383953050618054966557683801552368034808834925077753724884013160448725313193575331052532704868551001620054228294723510250124451475663571170983488003142489916076242068949182312854320010953238472836542501261567899396221836903028265925467170438447563705882156320720667017350625512906582191305428514416007163726974324145949587806304423848269413341722763117590887037658761155957802962478314750929157065648013963710007691771162906468197347831375552606458520056633839199201131090758830453478962808029513955532102558529301667869074029188309950822479426442111236269493819047787898733067165558010271443136612571078562442526880106166485462844050167272665606151876866087953513915102897915985965129341768811502988800835492443262604337712247418973783359146593488215013178876609405679224417651952593852474433884769807066532193356453776652736070629507146801594650247275824532000795301228192983643996883904379730771196622662168480841456997116775099038776867607669406623020999910985624333605966941881000776122876458595459665172856251469803448053384937738719108945875

/-- Intermediate MT19937 state (see the seeding lemmas below). -/
def qB2 : Nat :=
  41175619916433230337153915273993216636317286168703680332820898302921161740812492729592722441603767492731118317356287009478455758864929118803432160237106005020825083757002312520397792685882293279996550888713870528130849145527753041901201145419744147458621305705913010020152766553986089948622344643056860668539355566137233746233994178805727669659256817436100476432731519032783648397671297944746232245196836065358948417051175403709811845171675286549746308393319910271452759501153064245422875733540928765406321862882292318370078979285322060847368175292208062503039230395473642416263271704017772154977810404290300189081801246433889108484353761485981205685970367210675307455072477999338131679609657135329226980889346841457277569015196499728320926711721177050196233609130307991969644824894520006862422832177796968287617787363060321306594224462619844709639451275387975878427274635012012374104821011301612518833964611309689134558037634250773204847506840231471820811685627866168258330051169046734829591160255730005379665156181712240544756036482282087983044789751071796941837676374737382617868796953022949743827579496684624605322677296202688304610880720085635133819080618266704647405768522716410053315979028289246786119315298814843924316042530980812508629356995533769303340791214772958686658901020991431550557397490644292953705660624189112419614682647759011953570404326343739540573298428858567119580282971504788753042341440533431391776420323800752696297269204967813158992676652272664076305656022943169321156107406868131412765668073022784456041232249206243000683430957334754639975689576250482495741668801935127445085269179748781159790618013877320241109095419689236273848650455319203199506838263624626659050761779886518225048381602781300417201579457184559185658083355893123996821562919243362343040300201511561932594119168062423748454265845579052584173589632049536923846274906503168349567539042523150539734104024752812530810044639724233270542549814953437739113242161786351647270383297338287766455021991147543267746438470294949203203360175987842640726108517121783642390772385984292712809000484621864893400338235267431349505605662234886952473108666729307104950572181983609316394466054640535106501964904776716181548548572998903128401388169926236670852711911737720976426506890330613092656959992639236802679188823141392370375816739504246377156083970770046876942519631039298581629434868857280872793668375545081473271683190074931776957199798448180961686323075026815143007203341851271432912713667438945077693874232115799385353452619442015254796534798123663915620321830336578049487910108303971509269424506724179263011680858189198503321181194895523732635998428969109725196093047558132586024170294012229476041945867097518471690951119588126743370113318525605272050305966095577430847590154215343793065637837861461627230968464367981892005834725822211793257480763133305349922289312942935158139224124878702266381868245517599903305994343901657872027464954377719740572425053625397126859070936204793774445320709359615051903069251952095911412262408781429057658852189251169964234539101503186725965692488135276193213501935557221424603737134836727166307180246743963413252942819525604035130173574889244687590960088269283912006750769063056432273241199019012783986770857211484153049288364535143699466312851557675551701713392713181376850236273738659368416895398692088921139790374692350529848281896852136541204013729232826305690865637146228692377085802755279682571283669521363327253462568867978692689180019863910565087505187870032330322734520586697350882137102999180713236552627476334772906865284153526962817989183728161293752789188279361177475794477386821713206012867251309682134916445897571432765347690680228550460666637565407990117735858090630839148644740648041935979385187186600402319089503098354367836065686989944689775190911884105874464969442522978063580215011742151016032008157406837178527227705695827049107001257438156594602762739011925301312622592928893754022880012770847663305048970950336817727839067177316788930337289815069071739242904534669730649094730819214503471565965680874868432804484005879653998696091578496889226965688248291658482458733465472555066681260531792450293908812710234382992258038035196332815446782860021531702402297435600015334212223618324429470316846107193662473298961731096585711567284942210729269984134829622542627148743197364507086253822148357342373677971503486042987617354800584528164093641651980993458207967853350298187454126290261728272562146673461867327621085625249994897299380579154424446742234626472858654643305776402063862845375241723232513996384322024680088382979281779137072166008488803278638688730065283224671646201777539721963799449313785217143012952972308456414547549399462544216822545351004951977833661611251056665407529814575996984100445368534414505148612394765561124488491311798081044740197087424576197569453947584843549520307704684610895339301807423291456318002700799174693059001717569744253234517087395125487147735697621077642776787789684323591456489962645460155751707658178628845790836598693426536266854912471182041056397461781364564624932393281345300297523769255110040165140586200288556126205461589245155010923650609062433170979898168535433380274390374203177097253806757906885016392129271759906504860786934213764933907329324864247729963362068470750639672519511956590455955826759771917775158762723508284061731408965775303025162917270908665379401333394443372346370600089621430638159665527558069868604562222517893838334386173668546157639765995973585419492074089020243239075551831461101555789152846703082339447977168666117300119908725613962300509412955570012288035720525525590244385616178567274268532432988096732757746299520158402663348713105614628007527606369277010146230178747132495567883825147946257913636914492633170683985096424704716853436000393285460199991841703843380007154506150059448746667998850998864228615362563005898033429188251577034764845241527542860947876679756280827690831971810916617466139431280741023252371581700465126827395539404851333419577809757873746289394422756575078453716539299795

/-- Intermediate MT19937 state (see the seeding lemmas below). -/
def qB3 : Nat :=
  55015046606169956297248889360377182150325054083326489277972359638285721843732133109238038361966036060535507161557955404140534698331573551579909053431958615052190992787601289462545027344596710724343811282313625880809738663173169870511142084519549437490767038464121127162298959317655856806499821910736842198053386908541311824610836194714091386716188885582641013386906721577239885152978003443201416876509840155979030952414920483025964363000202380069604964276284737875149165517341691848419550277332457013318849108805294655654286193955875500096541535595671843587838772316207175367695576044596448582983467994558724747878048894522840776535925847966352247761281606862811248165230592176639790522098056876208216989594541101968551192794957114726471843906593527427041491154876298134214049356484186803583999340807714890719202224719197056612338708519131639736795463667937188306014148531959156827621240734197255716839702178708991850147934000575610686406387053125359903198216874712193025474022862525658395423390203868513628240948599532920231958065652822718828261461833143264665343253234051204344610381891087308343638718035779426463504735494010554516634944674208914223001076994754708006761390160576528198869604258399252895776008669028868420443097803206126983030176896802767286447734153759804323167360888857343139081782934643942416882971052551517335847590437214439858294477966142255617095161317511560371047322853413905668261581857431143126561972283393073269452254289052720411068611900813307250355371614282216135385736151389986725236807495821576040697517462731146639683170932470932460800729763397057307848561257110328244893140399007384820445122027877928056424251145244775212503660012095281121616858960531488281344368521009959311827804106136605274557426956730515000272739926442547575848698985507005255585181672417158676026147748956068728829289272136003336531557532340962102410764346312904054912455787754111134785880048682470749959297975954617709686283887937153608342171769917897963285383633483651506045210917064981755458472292689413075254717255602352786189698016265839839601753553065894460526351932239051783435342888314485889731724236006215925611410865452758855952260684121371694361847708612128533026517212906466703752403757565250514501384477526350997973315644726743154468003751756499890693004209270264734713268457504243388786339054475782581093988637225724882916607886733558438767939463644465279932550127185835537039421080839035266629241351821125484499398917146101362270576444087768014006765766030283519281003525144604885950174608729130140163440785850428447620164029278545851381570985670564061453857489868918190690418856716876071258186497201445304943991657939263475684388813524396556253276627880002692091176351201728642902766875903666478986907070814271340102601038340908591655584772072159438956441906740798548202116811669192306490245474778105214539075881743496732149967646814379055349594167423213062097484305137588917790806583670535254649875918408803543175851476162232738903394811509205030762943640013827683876155522115098178853503839144776512629736711890002273896651845370719913976897009577854268645103884295682992634122171944465835527295045113228939208733791996377348441006743462221588566978137980463767282841819766006345481955060278505218249216248440583928931800132501842174610130938224832201736384960583846932059000963565089232334222590395251357206088245277357495135258185739400056120698313238648078088526982121052300214163097434150931138017957377629207469618477027957914015301114982464811686811868801086544056665331854045260388185175060042293557717638599318281552672420627795445768361675381738643497000560428982823813060203401806832603062881403951446624961381306505672533535840609980222311960033363795604466133711237536169622005113907600470188414880929101417971243894606211364350501606781838373864173003104559492503255540392265756216150912383038699326411274365366140585345960645846226223214297889648199676528733423779107359149536543624725653899624980796420784110626037463308942788169845706140502500544596035384757191461092354155144614954245188848736293955059146413553147454467721298564960112350482962023847016174998546959786840045855648952837511647208252903619841447090267899122214771575628879972537143526272991785341066284620554554956677864009017017986502121069726984672067225295030537387630571813494443587753168222620709938433676516107732511422079996964410350981322268876628685843074217663703687066802467000665728953034382595349492101830732421138913736056868557765676039720541878139264200456432333889917803954704658563878945565956944167485185533404714079308273255682090675612724865270815906818084193238109858092269024063243225578067869797379340552369924757578134531672866163389448272909624291563216761155171546321825743867121492694161566435413267039210667817038875972931072813641804657119758393915948121613138161430710841759648120136929984104630611844602416562139721936047536099603124381742054694991640200659345840965146754035311005081977300635544735979553737959407165518094731990533251793792993805988769675625650228190473183505964462615729512836865572558215271098095092490745640943157450303609680567441559550526978016162646711524866874211969462900887713881296854040073779504901345075035076922794279825253341429311078392680792979435484717034412560818442797461336499549199355966703097951796583814479917667051397018382718162946047440089872642779826911631002226636634680898497898641898446391722775722502469591912866177111925770231164859135935576898021345880017387715593426126281675856442295857432156783905511049483907156444099556142617470328444762240317049791114053048996621738067953223196690911495402660051829997693871523601133698229335515726593788589566336250091344701926957980902523223024116966556753540200203894920465240634538240816094023201184887173132072994913753094737072444079613145942684216619647436197533258117947428007565699923287010441101813877839852102505100323758446706020633717939943995198635128983789712789662972851705558068167467346067640088635903146488057425564053183250862345903568697552668257979340619856669

/-- Intermediate MT19937 state (see the seeding lemmas below). -/
def afB : Nat :=
  55015046606169956297248889360377182150325054083326489277972359638285721843732133109238038361966036060535507161557955404140534698331573551579909053431958615052190992787601289462545027344596710724343811282313625880809738663173169870511142084519549437490767038464121127162298959317655856806499821910736842198053386908541311824610836194714091386716188885582641013386906721577239885152978003443201416876509840155979030952414920483025964363000202380069604964276284737875149165517341691848419550277332457013318849108805294655654286193955875500096541535595671843587838772316207175367695576044596448582983467994558724747878048894522840776535925847966352247761281606862811248165230592176639790522098056876208216989594541101968551192794957114726471843906593527427041491154876298134214049356484186803583999340807714890719202224719197056612338708519131639736795463667937188306014148531959156827621240734197255716839702178708991850147934000575610686406387053125359903198216874712193025474022862525658395423390203868513628240948599532920231958065652822718828261461833143264665343253234051204344610381891087308343638718035779426463504735494010554516634944674208914223001076994754708006761390160576528198869604258399252895776008669028868420443097803206126983030176896802767286447734153759804323167360888857343139081782934643942416882971052551517335847590437214439858294477966142255617095161317511560371047322853413905668261581857431143126561972283393073269452254289052720411068611900813307250355371614282216135385736151389986725236807495821576040697517462731146639683170932470932460800729763397057307848561257110328244893140399007384820445122027877928056424251145244775212503660012095281121616858960531488281344368521009959311827804106136605274557426956730515000272739926442547575848698985507005255585181672417158676026147748956068728829289272136003336531557532340962102410764346312904054912455787754111134785880048682470749959297975954617709686283887937153608342171769917897963285383633483651506045210917064981755458472292689413075254717255602352786189698016265839839601753553065894460526351932239051783435342888314485889731724236006215925611410865452758855952260684121371694361847708612128533026517212906466703752403757565250514501384477526350997973315644726743154468003751756499890693004209270264734713268457504243388786339054475782581093988637225724882916607886733558438767939463644465279932550127185835537039421080839035266629241351821125484499398917146101362270576444087768014006765766030283519281003525144604885950174608729130140163440785850428447620164029278545851381570985670564061453857489868918190690418856716876071258186497201445304943991657939263475684388813524396556253276627880002692091176351201728642902766875903666478986907070814271340102601038340908591655584772072159438956441906740798548202116811669192306490245474778105214539075881743496732149967646814379055349594167423213062097484305137588917790806583670535254649875918408803543175851476162232738903394811509205030762943640013827683876155522115098178853503839144776512629736711890002273896651845370719913976897009577854268645103884295682992634122171944465835527295045113228939208733791996377348441006743462221588566978137980463767282841819766006345481955060278505218249216248440583928931800132501842174610130938224832201736384960583846932059000963565089232334222590395251357206088245277357495135258185739400056120698313238648078088526982121052300214163097434150931138017957377629207469618477027957914015301114982464811686811868801086544056665331854045260388185175060042293557717638599318281552672420627795445768361675381738643497000560428982823813060203401806832603062881403951446624961381306505672533535840609980222311960033363795604466133711237536169622005113907600470188414880929101417971243894606211364350501606781838373864173003104559492503255540392265756216150912383038699326411274365366140585345960645846226223214297889648199676528733423779107359149536543624725653899624980796420784110626037463308942788169845706140502500544596035384757191461092354155144614954245188848736293955059146413553147454467721298564960112350482962023847016174998546959786840045855648952837511647208252903619841447090267899122214771575628879972537143526272991785341066284620554554956677864009017017986502121069726984672067225295030537387630571813494443587753168222620709938433676516107732511422079996964410350981322268876628685843074217663703687066802467000665728953034382595349492101830732421138913736056868557765676039720541878139264200456432333889917803954704658563878945565956944167485185533404714079308273255682090675612724865270815906818084193238109858092269024063243225578067869797379340552369924757578134531672866163389448272909624291563216761155171546321825743867121492694161566435413267039210667817038875972931072813641804657119758393915948121613138161430710841759648120136929984104630611844602416562139721936047536099603124381742054694991640200659345840965146754035311005081977300635544735979553737959407165518094731990533251793792993805988769675625650228190473183505964462615729512836865572558215271098095092490745640943157450303609680567441559550526978016162646711524866874211969462900887713881296854040073779504901345075035076922794279825253341429311078392680792979435484717034412560818442797461336499549199355966703097951796583814479917667051397018382718162946047440089872642779826911631002226636634680898497898641898446391722775722502469591912866177111925770231164859135935576898021345880017387715593426126281675856442295857432156783905511049483907156444099556142617470328444762240317049791114053048996621738067953223196690911495402660051829997693871523601133698229335515726593788589566336250091344701926957980902523223024116966556753540200203894920465240634538240816094023201184887173132072994913753094737072444079613145942684216619647436197533258117947428007565699923287010441101813877839852102505100323758446706020633717939943995198635128983789712789662972851705558068167467346067640088635903146488057425564053183250862345903568697552668257979340217647104

/-- Intermediate MT19937 state (see the seeding lemmas below). -/
def tB1 : Nat :=
  55015046606169956297248889360377182150325054083326489277972359638285721843732133109238038361966036060535507161557955404140534698331573551579909053431958615052190992787601289462545027344596710724343811282313625880809738663173169870511142084519549437490767038464121127162298959317655856806499821910736842198053386908541311824610836194714091386716188885582641013386906721577239885152978003443201416876509840155979030952414920483025964363000202380069604964276284737875149165517341691848419550277332457013318849108805294655654286193955875500096541535595671843587838772316207175367695576044596448582983467994558724747878048894522840776535925847966352247761281606862811248165230592176639790522098056876208216989594541101968551192794957114726471843906593527427041491154876298134214049356484186803583999340807714890719202224719197056612338708519131639736795463667937188306014148531959156827621240734197255716839702178708991850147934000575610686406387053125359903198216874712193025474022862525658395423390203868513628240948599532920231958065652822718828261461833143264665343253234051204344610381891087308343638718035779426463504735494010554516634944674208914223001076994754708006761390160576528198869604258399252895776008669028868420443097803206126983030176896802767286447734153759804323167360888857343139081782934643942416882971052551517335847590437214439858294477966142255617095161317511560371047322853413905668261581857431143126561972283393073269452254289052720411068611900813307250355371614282216135385736151389986725236807495821576040697517462731146639683170932470932460800729763397057307848561257110328244893140399007384820445122027877928056424251145244775212503660012095281121616858960531488281344368521009959311827804106136605274557426956730515000272739926442547575848698985507005255585181672417158676026147748956068728829289272136003336531557532340962102410764346312904054912455787754111134785880048682470749959297975954617709686283887937153608342171769917897963285383633483651506045210917064981755458472292689413075254717255602352786189698016265839839601753553065894460526351932239051783435342888314485889731724236006215925611410865452758855952260684121371694361847708612128533026517212906466703752403757565250514501384477526350997973315644726743154468003751756499890693004209270264734713268457504243388786339054475782581093988637225724882916607886733558438767939463644465279932550127185835537039421080839035266629241351821125484499398917146101362270576444087768014006765766030283519281003525144604885950174608729130140163440785850428447620164029278545851381570985670564061453857489868918190690418856716876071258186497201445304943991657939263475684388813524396556253276627880002692091176351201728642902766875903666478986907070814271340102601038340908591655584772072159438956441906740798548202116811669192306490245474778105214539075881743496732149967646814379055349594167423213062097484305137588917790806583670535254649875918408803543175851476162232738903394811509205030762943640013827683876155522115098178853503839144776512629736711890002273896651845370719913976897009577854268645103884295682992634122171944465835527295045113228939208733791996377348441006743462221588566978137980463767282841819766006345481955060278505218249216248440583928931800132501842174610130938224832201736384960583846932059000963565089232334222590395251357206088245277357495135258185739400056120698313238648078088526982121052300214163097434150931138017957377629207469618477027957914015301114982464811686811868801086544056665331854045260388185175060042293557717638599318281552672420627795445768361675381738643497000560428982823813060203401806832603062881403951446624961381306505672533535840609980222311960033363795604466133711237536169622005113907600470188414880929101417971243894606211364350501606781838373864173003104559492503255540392265756216150912383038699326411274365366140585345960645846226223214297889648199676528733423779107359149536543624725653899624980796420784110626037463308942788169845706140502500544596035384757191461092105529689989202880361482227864101290960759163290631903173305467260807089001957864691819771016519306938101172041766706066876093504237471627641113180092020110052299512762830041863378794794811350610074518630136678828809352196519584669551709237910145152219056504288452699641598344802981436309562669814587703791548854211691360050287092016870293754247567562913875108219560312969193052705268834406685444658376565679458053981606914198288423957410731407862072766162541065229510934114146209155681177596987243281603930863921401158015366024960576069066091175230088594433202237859399596810354380480622382605023489404162378251078524899311328119701651055779987195811100517458954707633146447226734127694649563206689522212900438358108426061137060659563700251386885067715256255211908478575710921717879542725017772824874934818086059975920289986465100240026725898366238858410052812920836632550788520232373063641994548703780345656840577834523381263534974019005084918087211960664613185981504208188094566498871419400271905597480839796119650025908872699779115119780356522647487501452123870353576024624074395955207292016661485884770595843192696844338382825213055451541009778577911391432280706851689153787695517305298326611202044428167645980040834846237100384504353592489635792897839868506653965727832784318210392574339232090799343047067035203385902489387626667475662872916537484132451097711194872305566684268309394900469481268182182322172230737908760480049061031729936064280720278382505277995278783470160985907695022851225653378469161595278813826189179498750668972077005001347404210956332367064500529151293674841966482415562201281447333694221154577137880416134579891007958224476930893072002717181093629416398860041254802716331962906108056031620778968891692014459715310324313717791478207902381178251575576216165203672100783615768673917345830557328350082773063396140590298369752255783231117374973044106834143980927155533391521600219497350382329455416649011301118120140628731148739771517625144125287683210578972478763757271038826380

/-- Intermediate MT19937 state (see the seeding lemmas below). -/
def tB2 : Nat :=
  55015046606169956297248889360377182150325054083326489277972359638285721843732133109238038361966036060535507161557955404140534698331573551579909053431958615052190992787601289462545027344596710724343811282313625880809738663173169870511142084519549437490767038464121127162298959317655856806499821910736842198053386908541311824610836194714091386716188885582641013386906721577239885152978003443201416876509840155979030952414920483025964363000202380069604964276284737875149165517341691848419550277332457013318849108805294655654286193955875500096541535595671843587838772316207175367695576044596448582983467994558724747878048894522840776535925847966352247761281606862811248165230592176639790522098056876208216989594541101968551192794957114726471843906593527427041491154876298134214049356484186803583999340807714890719202224719197056612338708519131639736795463667937188306014148531959156827621240734197255716839702178708991850147934000575610686406387053125359903198216874712193025474022862525658395423390203868513628240948599532920231958065652822718828261461833143264665343253234051204344610381891087308343638718035779426463504735494010554516634944674208914223001076994754708006761390160576528198869604258399252895776008669028868420443097803206126983030176896802767286447734153759804323167360888857343139081782934643942416882971052551517335847590437214439858294477966142255617095161317511560371047322853413905668261581857431143126561972283393073269452254289052720411068611900813307250355371614282216135385736151389986725236807495821576040697517462731146639683170932470932460800729763397057307848561257110328244893140399007384820445122027877928056424251145244775212503660012095281121616858960531488281344368521009959311827804106136605274557426956730515000272739926442547575848698985507005255585181672417158676026147748956068728829289272136003336531557532340962102410764346312904054912455787754111134785880048682470749959297975954617709686283887937153608342171769917897963285383633483651506045210917064981755458472176942983046992517872254511356037309930840184539924897459402298353975014676245927002451325654599257532465094418289293729526363043836934195141386152662850881851573836025210135785854764988567654907098232655487660769611605021393972995791429807538564148555358851112065944031332891769735003672241043398263809020087989393530730156240968688123015062205055280583530689326769478276475878770844809132064662214091151668776060934076315497998914566036381907896987891235487807133698552244487160970374443559700041860610674116163884366826199739187339713563441627288288809733571273153396896450477503098757098821712580600546848729656679313985791353570396083166203292033670834608668116555456600107036732917732528778893026085086887909051033748946399539645362698022410811362964531758440417283258522916383402593241153831572314332153247384564916730326782905355631670179774760955974651612335886750917942522084768078417387913443127663204728755206823031479350791201175871570232584814226345646295038539442355202027491773677533399530675225116518057488157073550104236843361429188263310706967463705526857245278572567961371594117560873423820461734983545445666895545350080315216354976968922486417604877401114990328219338097314789771796348324859418185791918254798076004327260504870079752887181999144445714201492965733304150148443143953166685257124666076944801691735528195098179167589811099554206415153092618270368373292211028305084304248038813096673510387750243784346019700179369554970872708905144088714249071878217805564621334875269025067413308765142012688805864069426306610680659057149157753370890723142850835974682579355714600706912127113001345846240961145254103121302405477071613047170904445228383254165514934915439583457861556148751766586028770323354638669840365609939838980696172380867998381788039682566432275045916141957114884092911289575696661267463118588661255087351512732182134546425476173613829941897734099333302017066234342506923356283426370750389721580215999757930617546284019433405288930882706616915873332124098960335593233109912222797547126113478653612799825039069006741111107959871620801069814776486969610042841451671810624941005957939457099715603579707464338164033604467559546215993673769254017940209964112991461986138694263405349859184117256352973029441474738128218651111934039859698652708564495959831384237974593000224347370940459395838107747539206319311823564447527868943336965915051137586004414290210797589771864456118127094171459329361613051275175880412696205928615304746856497038216608308949212324516779117661642577105262714452016446873762944096828788545926244952178817770470845012594137846076472413714410942456295946725918640802498612536038392689338276564768399227263272300246970338933069286142628576308902058512133784646564870780523821276020612951088511424326722699145302641919301161330700224243578170518869603703260830423757919629171642665548935403851385117354002250704239877151974045698065915916793669063152346186630863465571575322185999508719754995390566889155879630952937579464907541453451732259560622426368366863665202493673607844188982843448620819929314781232416279882378465514341331792516056571026519132796267595996645469114687557265122388022036775218130144869826655154481899052701406316268008996111971165201801977448241351601374199457018519970310365163050912526553357612293396006719022319574266499839952590212730750100299772748118571772776269033941649394724921632768246840648946449361970603537680468884210927843144875751211913264820105057274078422188077621991177447144665058742909390418921713437377447619538544307007206470469718401950634536446773835292757172167529505918613493987109055524019891458688639997827305288966014620727519710686749368331783777813139590647900201775669181918117137961379118379350745031238562063739963874575122892998266850939942865385865471989680248538746221821492422069466878313394063685188248932597566466376273513285366383477016966792881537568680258195566350953080202469765303404849634803173294744155932971135612564530052447719454541573715806762652855453541647370095348716499780769676

/-- Intermediate MT19937 state (see the seeding lemmas below). -/
def twB : Nat :=
  67808207285139634227227985114779358463124431282544684049671218861070547136814387535905310742156927160664089550173528382921231875365632347571507821067944867944017751687366584816990226773372860459672780153428928560931508352639122054151881208814514687352959860450976488457186246127143847697790820101150692129114304417837408667215000412985878182523249901999685603873759519687429538852954767814057043398592407680482274713598709691329143425341198998904232928107075646927853813740371173599096987223189004407918425743678109279837319552204501071903276315372153534609897752054843881813228938649281634624397116601405083159233690953494676567181039789111121607492503520590028034931909019926482756982690474520978047467244084835504106886074505157914505006032576432524698995923170101680565070843351117428786473718540754854466311972622913103925094725655515483519767926615793688904408339619222770787701639311514122479109350689011307127789221805158587364196331580173132607078561533053898704436332930991260368955882634752538958576219353965081933402187494546380859766098278378999913379690844519959013765725890385733388762857746207300570610066540943543952291170893810212750864944717431164734536801552957068499886038383655359022729934233665901221393467457854393171047900710162058402276564575573677842463162386811316836543466815311938517174085542112542535203253192326090858823602750193188399025272349220303852857810173637182393668313551911549484701067042773122087225107678717351607624358078280311171848225918499492533351574680818966305342040679990922083831348380199893452122125103268223133543660338246719888301196344936414095741220544325059607097448688865312425257330697814902721363426442619788260979929543457026392154548732837287970793202880020859418647774612024879310400684581098757480710870509280534815476745542157169141493354958388062772638865180906075849989428330950910949563851053339331136430033301658891317539426299840089851597633504858716637038965873739662992389408986562046090026522360140371998542560805855515383598339793443767134284672741562175589294801019196869749965453772581376151174762123445717327117118366564918004168519107005831121899989719871236201905092778335315495605026377652377632481329650449469161654984626498513084475128014850691263558038802289854444495291826098228766549388607765043313757357350601891924870120184745689702476943307775378649399992557347422261929815516641821443446035286997839858118310140386667494373678390936234284647964468065694805620050386071434030437445819403173239938982142296397078961088072531477212874994970446842158612480834846709498405264876600280507872202692771575104825166902187184906559884151209077325051136575856546227667805210181905499480263674071066097534039463785282300912950276233980958346194750124682701849449143004507774984532891900605246898081893486620083734746005415280065668913884846649253309130691242209860227256201814824760024551848420500597408296083616457809418194755530267994270544347843608557676076240801574488527175509954387682569840492564048993437101724687190771594427248442637815390858096562920483321672562787016214916473175736985449135283295329927711837243215185769543827993202354218948997902787950435260390854320285522674078098884453685738649164166274702651245563730876383676525763634392865340262207843061257040134977928278099897598833141648874665229425294613687169249177006182094207545133051137509553284229478201102820978622657864403375022060860808496882050709001828084472970638257546751712606230177335516762273011599728639564632827738595416181663594309053856178811891703420711793834329365182171265588287143795221766956399814045026920573019121024510209920502466115495714929993631100096495520816626600311135233080771651380560288306706872030501569712289196844074416054226048431129825205800118978537697052285079227963203470120807659269611320137796414007172637666265143661019622148996115681285363417027475194642544297193939056499790322564456765712090971359355408144313889551289067871313777808840425872674870802602373878412216105062141309759484469403177549496056631426632195669086469505654578369753010256497437561489671748631450995528481334369485432524703397805107551568715366391152524941617359916328748341501769421727336121953271294436835930965242771659052027679066383369139822382794294763351394507484328723664838972160250495035192917055340513971044083803297311606265517297698014220361404461422743841454012146131526733923762994560740332534157425572149560854406194149125851552670461729277004379387285314000455006784227578676449172082207621750103919995411148965983052844346446354517272804707034164791914589343528551212336756692933141348533092776547774566179902733654064259254405437974940473656026273368061364665426437816199729884679789131607174337876768722191231770532284358510463752096482746640041875926467988350767266024678734821484672247001932385186420681118665859234293162779933265157430204308240585841037043019237628614068391959991952094146950331888579290406674528485103455563939323895457660959721608233549941666140483187997806261909673287269305517337240572249003297781505951251335569678307169231471118889906920981942251543713914285418625327484140057118892790116897026282350967146241638377913300747858412658791653432070608268016047233578951087461506665350895470232202851650467955543715664249180424479469583815042829255941358292179125653506691672098982940367755385150856230634036342047776611772483824045703296039795729181013208907065010910525565686871908151129232073613087662299403551648739161115565885338660021425633939302725402481623543292927399009676322186874894315824290524599161314669657865212216850952294131573001072823366248516101776834533264638433115030804135787432162831917682522387873709573500749114592620951655196347793165954773959950474626501576995740224979206798487728131991622437673034162882506555343123158475695288194610935114758526441376920762955463716313021662327401581764184957664478306945983359923803091185992044210866719430863004415802893993454650888705717441622971405419316131286574764017273490765093124158968655461523807731776111844940830218124

/-! Splitting lemmas for the MT19937 loops.  Kernel evaluation of the
seeding would otherwise chase a data-dependency chain about two thousand
deep; these lemmas let concrete states be established in bounded slices. -/

/-- `initGenrandAux` splits across iteration counts. -/
theorem initGenrandAux_add (a b i s : Nat) :
    initGenrandAux (a + b) i s = initGenrandAux b (i + a) (initGenrandAux a i s) := by
  induction a generalizing i s with
  | zero => simp [initGenrandAux]
  | succ a ih =>
      rw [show a + 1 + b = (a + b) + 1 from by omega]
      simp only [initGenrandAux]
      rw [ih, show i + 1 + a = i + (a + 1) from by omega]

/-- `ibaLoop1` splits across iteration counts. -/
theorem ibaLoop1_add (a b i j s : Nat) (key : List Nat) :
    ibaLoop1 (a + b) i j s key =
      ibaLoop1 b (ibaLoop1 a i j s key).2.1 (ibaLoop1 a i j s key).2.2
        (ibaLoop1 a i j s key).1 key := by
  induction a generalizing i j s with
  | zero => simp [ibaLoop1]
  | succ a ih =>
      rw [show a + 1 + b = (a + b) + 1 from by omega]
      simp only [ibaLoop1]
      rw [ih]

/-- `ibaLoop2` splits across iteration counts. -/
theorem ibaLoop2_add (a b i s : Nat) :
    ibaLoop2 (a + b) i s =
      ibaLoop2 b (ibaLoop2 a i s).2 (ibaLoop2 a i s).1 := by
  induction a generalizing i s with
  | zero => simp [ibaLoop2]
  | succ a ih =>
      rw [show a + 1 + b = (a + b) + 1 from by omega]
      simp only [ibaLoop2]
      rw [ih]

/-- `twistAux` splits across iteration counts. -/
theorem twistAux_add (a b kk s : Nat) :
    twistAux (a + b) kk s = twistAux b (kk + a) (twistAux a kk s) := by
  induction a generalizing kk s with
  | zero => simp [twistAux]
  | succ a ih =>
      rw [show a + 1 + b = (a + b) + 1 from by omega]
      simp only [twistAux]
      rw [ih, show kk + 1 + a = kk + (a + 1) from by omega]

/-- An exhausted generator behaves like a freshly twisted one. -/
theorem genrand_twist (s : Nat) : genrand ⟨s, 624⟩ = genrand ⟨twist s, 0⟩ := by
  simp [genrand]

/-- `getrandbits` through an exhausted generator. -/
theorem getrandbits_twist (k s : Nat) :
    getrandbits k ⟨s, 624⟩ = getrandbits k ⟨twist s, 0⟩ := by
  unfold getrandbits
  rw [genrand_twist]

/-- `randbelowAux` through an exhausted generator. -/
theorem randbelowAux_twist (f n k s : Nat) :
    randbelowAux (f + 1) n k ⟨s, 624⟩ = randbelowAux (f + 1) n k ⟨twist s, 0⟩ := by
  simp only [randbelowAux]
  rw [getrandbits_twist]

/-- `randbelow` through an exhausted generator. -/
theorem randbelow_twist (n s : Nat) (h : n ≠ 0) :
    randbelow n ⟨s, 624⟩ = randbelow n ⟨twist s, 0⟩ := by
  unfold randbelow
  rw [if_neg h, if_neg h]
  exact randbelowAux_twist 63 n (bitLength n) s

/-- A shuffle that performs at least one draw, through an exhausted
generator. -/
theorem shuffleAux_twist (i : Nat) (l : List String) (s : Nat) :
    shuffleAux (i + 1) l ⟨s, 624⟩ = shuffleAux (i + 1) l ⟨twist s, 0⟩ := by
  simp only [shuffleAux]
  rw [randbelow_twist (i + 2) s (by omega)]
/-! Concrete MT19937 seeding states for participants `"alice"` and `"bob"`,
established in bounded slices via the splitting lemmas. -/

set_option maxRecDepth 100000

/-- First third of the base fill. -/
theorem mtG1_eq : initGenrandAux 208 1 (w32 19650218) = mtG1 := by decide

/-- Second third of the base fill. -/
theorem mtG2_eq : initGenrandAux 208 209 mtG1 = mtG2 := by decide

/-- Final slice of the base fill. -/
theorem mtG3_eq : initGenrandAux 207 417 mtG2 = mtSeed0 := by decide

/-- The full base fill state. -/
theorem initGenrand_eq : initGenrand 19650218 = mtSeed0 := by
  unfold initGenrand
  rw [show (623 : Nat) = 208 + (208 + 207) from by norm_num,
    initGenrandAux_add, mtG1_eq, initGenrandAux_add]
  rw [show (1 : Nat) + 208 = 209 from by norm_num, mtG2_eq]
  rw [show (209 : Nat) + 208 = 417 from by norm_num]
  exact mtG3_eq

/-- `initByArray` on a two-limb key, with its loops exposed. -/
theorem initByArray_two (k0 k1 : Nat) :
    initByArray [k0, k1] =
      mtSet (ibaLoop2 623 (ibaLoop1 624 1 0 (initGenrand 19650218) [k0, k1]).2.1
        (ibaLoop1 624 1 0 (initGenrand 19650218) [k0, k1]).1).1 0 0x80000000 := rfl


/-- Slice 1 of the first seeding loop for participant `alice`. -/
theorem rA1_eq : ibaLoop1 208 1 0 mtSeed0 [2477688553, 168024062] = (sA1, 209, 0) := by decide

/-- Slice 2 of the first seeding loop for participant `alice`. -/
theorem rA2_eq : ibaLoop1 208 209 0 sA1 [2477688553, 168024062] = (sA2, 417, 0) := by decide

/-- Slice 3 of the first seeding loop for participant `alice`. -/
theorem rA3_eq : ibaLoop1 208 417 0 sA2 [2477688553, 168024062] = (sA3, 2, 0) := by decide

/-- The first seeding loop for participant `alice`, assembled. -/
theorem loop1A_eq : ibaLoop1 624 1 0 mtSeed0 [2477688553, 168024062] = (sA3, 2, 0) := by
  rw [show (624 : Nat) = 208 + (208 + 208) from by norm_num, ibaLoop1_add, rA1_eq]
  show ibaLoop1 (208 + 208) 209 0 sA1 [2477688553, 168024062] = (sA3, 2, 0)
  rw [ibaLoop1_add, rA2_eq]
  show ibaLoop1 208 417 0 sA2 [2477688553, 168024062] = (sA3, 2, 0)
  exact rA3_eq

/-- Slice 1 of the second seeding loop for participant `alice`. -/
theorem pA1_eq : ibaLoop2 208 2 sA3 = (qA1, 210) := by decide

/-- Slice 2 of the second seeding loop for participant `alice`. -/
theorem pA2_eq : ibaLoop2 208 210 qA1 = (qA2, 418) := by decide

/-- Slice 3 of the second seeding loop for participant `alice`. -/
theorem pA3_eq : ibaLoop2 207 418 qA2 = (qA3, 2) := by decide

/-- The second seeding loop for participant `alice`, assembled. -/
theorem loop2A_eq : ibaLoop2 623 2 sA3 = (qA3, 2) := by
  rw [show (623 : Nat) = 208 + (208 + 207) from by norm_num, ibaLoop2_add, pA1_eq]
  show ibaLoop2 (208 + 207) 210 qA1 = (qA3, 2)
  rw [ibaLoop2_add, pA2_eq]
  show ibaLoop2 207 418 qA2 = (qA3, 2)
  exact pA3_eq

/-- The seeded generator state for participant `alice`. -/
theorem mtInit_alice :
    mtInit (seedOfString (orderSeedString "alice")) = ⟨afA, 624⟩ := by
  unfold mtInit
  rw [show seedKey (seedOfString (orderSeedString "alice")) = [2477688553, 168024062] from by decide]
  rw [initByArray_two, initGenrand_eq, loop1A_eq]
  show MTState.mk (mtSet (ibaLoop2 623 2 sA3).1 0 0x80000000) 624 = ⟨afA, 624⟩
  rw [loop2A_eq]
  show MTState.mk (mtSet qA3 0 0x80000000) 624 = ⟨afA, 624⟩
  rw [show mtSet qA3 0 0x80000000 = afA from by decide]

/-- Slice 1 of the first twist for participant `alice`. -/
theorem wA1_eq : twistAux 208 0 afA = tA1 := by decide

/-- Slice 2 of the first twist for participant `alice`. -/
theorem wA2_eq : twistAux 208 208 tA1 = tA2 := by decide

/-- Slice 3 of the first twist for participant `alice`. -/
theorem wA3_eq : twistAux 208 416 tA2 = twA := by decide

/-- The first twist of the seeded generator for participant `alice`. -/
theorem twist_alice : twist afA = twA := by
  unfold twist
  rw [show (624 : Nat) = 208 + (208 + 208) from by norm_num, twistAux_add, wA1_eq]
  rw [show (0 : Nat) + 208 = 208 from by norm_num, twistAux_add, wA2_eq]
  rw [show (208 : Nat) + 208 = 416 from by norm_num]
  exact wA3_eq


/-- Slice 1 of the first seeding loop for participant `bob`. -/
theorem rB1_eq : ibaLoop1 208 1 0 mtSeed0 [553713427, 4279665091] = (sB1, 209, 0) := by decide

/-- Slice 2 of the first seeding loop for participant `bob`. -/
theorem rB2_eq : ibaLoop1 208 209 0 sB1 [553713427, 4279665091] = (sB2, 417, 0) := by decide

/-- Slice 3 of the first seeding loop for participant `bob`. -/
theorem rB3_eq : ibaLoop1 208 417 0 sB2 [553713427, 4279665091] = (sB3, 2, 0) := by decide

/-- The first seeding loop for participant `bob`, assembled. -/
theorem loop1B_eq : ibaLoop1 624 1 0 mtSeed0 [553713427, 4279665091] = (sB3, 2, 0) := by
  rw [show (624 : Nat) = 208 + (208 + 208) from by norm_num, ibaLoop1_add, rB1_eq]
  show ibaLoop1 (208 + 208) 209 0 sB1 [553713427, 4279665091] = (sB3, 2, 0)
  rw [ibaLoop1_add, rB2_eq]
  show ibaLoop1 208 417 0 sB2 [553713427, 4279665091] = (sB3, 2, 0)
  exact rB3_eq

/-- Slice 1 of the second seeding loop for participant `bob`. -/
theorem pB1_eq : ibaLoop2 208 2 sB3 = (qB1, 210) := by decide

/-- Slice 2 of the second seeding loop for participant `bob`. -/
theorem pB2_eq : ibaLoop2 208 210 qB1 = (qB2, 418) := by decide

/-- Slice 3 of the second seeding loop for participant `bob`. -/
theorem pB3_eq : ibaLoop2 207 418 qB2 = (qB3, 2) := by decide

/-- The second seeding loop for participant `bob`, assembled. -/
theorem loop2B_eq : ibaLoop2 623 2 sB3 = (qB3, 2) := by
  rw [show (623 : Nat) = 208 + (208 + 207) from by norm_num, ibaLoop2_add, pB1_eq]
  show ibaLoop2 (208 + 207) 210 qB1 = (qB3, 2)
  rw [ibaLoop2_add, pB2_eq]
  show ibaLoop2 207 418 qB2 = (qB3, 2)
  exact pB3_eq

/-- The seeded generator state for participant `bob`. -/
theorem mtInit_bob :
    mtInit (seedOfString (orderSeedString "bob")) = ⟨afB, 624⟩ := by
  unfold mtInit
  rw [show seedKey (seedOfString (orderSeedString "bob")) = [553713427, 4279665091] from by decide]
  rw [initByArray_two, initGenrand_eq, loop1B_eq]
  show MTState.mk (mtSet (ibaLoop2 623 2 sB3).1 0 0x80000000) 624 = ⟨afB, 624⟩
  rw [loop2B_eq]
  show MTState.mk (mtSet qB3 0 0x80000000) 624 = ⟨afB, 624⟩
  rw [show mtSet qB3 0 0x80000000 = afB from by decide]

/-- Slice 1 of the first twist for participant `bob`. -/
theorem wB1_eq : twistAux 208 0 afB = tB1 := by decide

/-- Slice 2 of the first twist for participant `bob`. -/
theorem wB2_eq : twistAux 208 208 tB1 = tB2 := by decide

/-- Slice 3 of the first twist for participant `bob`. -/
theorem wB3_eq : twistAux 208 416 tB2 = twB := by decide

/-- The first twist of the seeded generator for participant `bob`. -/
theorem twist_bob : twist afB = twB := by
  unfold twist
  rw [show (624 : Nat) = 208 + (208 + 208) from by norm_num, twistAux_add, wB1_eq]
  rw [show (0 : Nat) + 208 = 208 from by norm_num, twistAux_add, wB2_eq]
  rw [show (208 : Nat) + 208 = 416 from by norm_num]
  exact wB3_eq

/-- The participant-order shuffle of a two-item list for participant
`alice`: the items swap. -/
theorem shuffled_alice :
    shuffled_order ["u1", "u2"] (some "alice") = ["u2", "u1"] := by
  show (pyShuffle ["u1", "u2"] (mtInit (seedOfString (orderSeedString "alice")))).1 = ["u2", "u1"]
  rw [mtInit_alice]
  show (shuffleAux (0 + 1) ["u1", "u2"] ⟨afA, 624⟩).1 = ["u2", "u1"]
  rw [shuffleAux_twist, twist_alice]
  decide

/-- The participant-order shuffle of a two-item list for participant
`bob`: the items stay. -/
theorem shuffled_bob :
    shuffled_order ["u1", "u2"] (some "bob") = ["u1", "u2"] := by
  show (pyShuffle ["u1", "u2"] (mtInit (seedOfString (orderSeedString "bob")))).1 = ["u1", "u2"]
  rw [mtInit_bob]
  show (shuffleAux (0 + 1) ["u1", "u2"] ⟨afB, 624⟩).1 = ["u1", "u2"]
  rw [shuffleAux_twist, twist_bob]
  decide

/-! The shuffle permutes: Fisher–Yates swaps preserve the multiset of
elements, whatever the random stream produces. -/

/-- `_randbelow`'s rejection loop stays below its bound. -/
theorem randbelowAux_lt (f n k : Nat) (st : MTState) (h : 0 < n) :
    (randbelowAux f n k st).1 < n := by
  induction f generalizing st with
  | zero =>
      simp only [randbelowAux]
      exact Nat.mod_lt _ h
  | succ f ih =>
      simp only [randbelowAux]
      split
      · assumption
      · exact ih _

/-- `_randbelow n` stays below `n`. -/
theorem randbelow_lt (n : Nat) (st : MTState) (h : 0 < n) :
    (randbelow n st).1 < n := by
  unfold randbelow
  rw [if_neg (by omega)]
  exact randbelowAux_lt 64 n (bitLength n) st h

/-- Setting one position exchanges one occurrence count for another. -/
theorem count_set_add {α} [DecidableEq α] (l : List α) (i : Nat) (a x : α)
    (h : i < l.length) :
    (l.set i a).count x + (if l[i] = x then 1 else 0) =
      l.count x + (if a = x then 1 else 0) := by
  induction l generalizing i with
  | nil => simp at h
  | cons b t ih =>
      cases i with
      | zero =>
          simp only [List.set, List.count_cons, List.getElem_cons_zero]
          by_cases hbx : b = x <;> by_cases hax : a = x <;>
            simp [hbx, hax]
      | succ i =>
          simp only [List.set, List.count_cons, List.getElem_cons_succ]
          have := ih i (by simpa using Nat.lt_of_succ_lt_succ h)
          by_cases hbx : b = x <;> simp [hbx] <;> omega

/-- A two-position exchange (`x[i], x[j] = x[j], x[i]`) is a permutation. -/
theorem swap_perm {α} [DecidableEq α] (l : List α) (i j : Nat) (d : α)
    (hi : i < l.length) (hj : j < l.length) :
    ((l.set i (l.getD j d)).set j (l.getD i d)).Perm l := by
  rw [List.perm_iff_count]
  intro x
  have hgj : l.getD j d = l[j] := List.getD_eq_getElem l d hj
  have hgi : l.getD i d = l[i] := List.getD_eq_getElem l d hi
  have hj' : j < (l.set i (l.getD j d)).length := by simpa using hj
  have hmid : (l.set i (l.getD j d))[j] = l.getD j d := by
    by_cases hij : i = j
    · subst hij
      simp [hgj]
    · rw [List.getElem_set_ne hij]
      exact hgj.symm
  have e1 := count_set_add l i (l.getD j d) x hi
  have e2 := count_set_add (l.set i (l.getD j d)) j (l.getD i d) x hj'
  rw [hmid] at e2
  rw [hgi, hgj] at *
  by_cases h1 : l[i] = x <;> by_cases h2 : l[j] = x <;>
    simp [h1, h2] at e1 e2 ⊢ <;> omega

/-- Every prefix of the shuffle loop yields a permutation of its input. -/
theorem shuffleAux_perm (i : Nat) :
    ∀ (l : List String) (st : MTState), i < l.length →
      ((shuffleAux i l st).1).Perm l := by
  induction i with
  | zero =>
      intro l st _
      simp [shuffleAux]
  | succ i ih =>
      intro l st h
      simp only [shuffleAux]
      have hj := randbelow_lt (i + 2) st (by omega)
      set j := (randbelow (i + 2) st).1 with hjdef
      have hlen : ((l.set (i + 1) (l.getD j "")).set j (l.getD (i + 1) "")).length =
          l.length := by simp
      have hperm := swap_perm l (i + 1) j "" h (by omega)
      exact ((ih _ _ (by omega)).trans hperm)

/-- `random.shuffle` yields a permutation of its input. -/
theorem pyShuffle_perm (l : List String) (st : MTState) :
    ((pyShuffle l st).1).Perm l := by
  cases l with
  | nil => simp [pyShuffle, shuffleAux]
  | cons a t =>
      exact shuffleAux_perm t.length (a :: t) st (by simp)

/-- The participant-order shuffle of `load_items` yields a permutation of
the pre-shuffle truncated selection, for every participant input. -/
theorem shuffled_order_perm (l : List String) (u : Option String) :
    (shuffled_order l u).Perm l := by
  cases u with
  | none => simp [shuffled_order]
  | some s =>
      simp only [shuffled_order]
      split
      · exact pyShuffle_perm _ _
      · exact List.Perm.refl _

/-! Structure of the `load_items` record list. -/

/-- The record loop writes `source_userid` independently of position. -/
theorem mkRecords_map_source (bm am : List (String × Entry)) :
    ∀ (i : Nat) (l : List String),
      (mkRecords bm am i l).map (·.source_userid) = l.map (source_of bm) := by
  intro i l
  induction l generalizing i with
  | nil => rfl
  | cons uid rest ih => simp [mkRecords, mkRecord, source_of, ih]

/-- The record loop preserves length. -/
theorem mkRecords_length (bm am : List (String × Entry)) :
    ∀ (i : Nat) (l : List String), (mkRecords bm am i l).length = l.length := by
  intro i l
  induction l generalizing i with
  | nil => rfl
  | cons uid rest ih => simp [mkRecords, ih]

/-- Every record of the loop carries an index at least the start index. -/
theorem mkRecords_index_ge (bm am : List (String × Entry)) :
    ∀ (i : Nat) (l : List String) (r : ItemRecord),
      r ∈ mkRecords bm am i l → i ≤ r.item_index := by
  intro i l
  induction l generalizing i with
  | nil => intro r h; simp [mkRecords] at h
  | cons uid rest ih =>
      intro r h
      simp only [mkRecords, List.mem_cons] at h
      rcases h with h | h
      · subst h; simp [mkRecord]
      · exact Nat.le_of_succ_le (ih (i + 1) r h)

/-- The record loop emits indices in (strictly) ascending order. -/
theorem mkRecords_sorted (bm am : List (String × Entry)) :
    ∀ (i : Nat) (l : List String),
      (mkRecords bm am i l).Pairwise (fun r s => r.item_index ≤ s.item_index) := by
  intro i l
  induction l generalizing i with
  | nil => simp [mkRecords]
  | cons uid rest ih =>
      simp only [mkRecords, List.pairwise_cons]
      refine ⟨fun r hr => ?_, ih (i + 1)⟩
      have := mkRecords_index_ge bm am (i + 1) rest r hr
      simp [mkRecord]
      omega

/-- The `k`-th record of the loop carries index `i + k`. -/
theorem mkRecords_get_index (bm am : List (String × Entry)) :
    ∀ (l : List String) (i k : Nat) (h : k < (mkRecords bm am i l).length),
      ((mkRecords bm am i l).get ⟨k, h⟩).item_index = i + k := by
  intro l
  induction l with
  | nil => intro i k h; simp [mkRecords] at h
  | cons uid rest ih =>
      intro i k h
      cases k with
      | zero => simp [mkRecords, mkRecord]
      | succ k =>
          simp only [mkRecords, List.get_cons_succ]
          rw [ih (i + 1) k]
          omega

/-- `load_items`, with its final (no-op) sort removed: the record list is the
enumeration of the shuffled, truncated selection. -/
theorem load_items_eq (b a : Dataset) (mi : Nat) (u : Option String) :
    load_items b a mi u =
      mkRecords (build_user_map b) (build_user_map a) 0
        (shuffled_order ((prioritized_uids b a).take mi) u) := by
  unfold load_items
  by_cases hp : prioritized_uids b a = []
  · rw [if_pos hp, hp]
    simp only [List.take_nil]
    have hsh : shuffled_order [] u = [] := by
      cases u with
      | none => rfl
      | some s =>
          simp only [shuffled_order]
          split
          · rfl
          · rfl
    rw [hsh]
    rfl
  · rw [if_neg hp]
    exact List.Sorted.insertionSort_eq
      (mkRecords_sorted (build_user_map b) (build_user_map a) 0 _)

/-- The subject column of `load_items` is, as a multiset, the image of the
pre-shuffle truncated selection — for every participant input. -/
theorem load_items_source_perm (b a : Dataset) (mi : Nat) (u : Option String) :
    ((load_items b a mi u).map (·.source_userid)).Perm
      (((prioritized_uids b a).take mi).map (source_of (build_user_map b))) := by
  rw [load_items_eq, mkRecords_map_source]
  exact (shuffled_order_perm _ u).map _

/-! Characterizations of the Progress Tracker scan. -/

/-- The answered-index component of the scan: the indices of matching,
parseable rows, appended in log order. -/
theorem userDataScan_fst (uid : String) :
    ∀ (l : List Row) (acc : List Int) (p : Option Profile),
      (userDataScan uid l (acc, p)).1 =
        acc ++ l.filterMap (fun r => if rowMatches r uid then rowItemIndex r else none) := by
  intro l
  induction l with
  | nil => intro acc p; simp [userDataScan]
  | cons r rest ih =>
      intro acc p
      simp only [userDataScan, userDataStep, List.filterMap_cons]
      by_cases hm : rowMatches r uid
      · simp only [hm, if_true]
        cases hidx : rowItemIndex r with
        | none =>
            by_cases hp : rowHasProfile r <;>
              simp [hp, ih, hidx]
        | some i =>
            by_cases hp : rowHasProfile r <;>
              simp [hp, ih, hidx]
      · simp [hm, ih]

/-- The profile component of the scan: last matching row with a truthy
`kyushu_student` wins; else the incoming profile survives. -/
theorem userDataScan_snd (uid : String) :
    ∀ (l : List Row) (acc : List Int) (p : Option Profile),
      (userDataScan uid l (acc, p)).2 =
        match (l.filter (fun r => rowMatches r uid && rowHasProfile r)).getLast? with
        | some r => some (mkProfile r)
        | none => p := by
  intro l
  induction l with
  | nil => intro acc p; simp [userDataScan]
  | cons r rest ih =>
      intro acc p
      simp only [userDataScan, userDataStep, List.filter_cons]
      by_cases hq : (rowMatches r uid && rowHasProfile r) = true
      · have hm : rowMatches r uid := by
          simp at hq; exact hq.1
        have hp : rowHasProfile r := by
          simp at hq; exact hq.2
        simp only [hq, if_true, hm, if_true, hp]
        cases hidx : rowItemIndex r with
        | none =>
            rw [ih]
            cases hfl : rest.filter (fun r => rowMatches r uid && rowHasProfile r) with
            | nil => simp
            | cons x xs =>
                cases hgl : (x :: xs).getLast? with
                | none => simp at hgl
                | some y => simp [List.getLast?_cons_cons, hgl]
        | some i =>
            rw [ih]
            cases hfl : rest.filter (fun r => rowMatches r uid && rowHasProfile r) with
            | nil => simp
            | cons x xs =>
                cases hgl : (x :: xs).getLast? with
                | none => simp at hgl
                | some y => simp [List.getLast?_cons_cons, hgl]
      · simp only [hq, if_false]
        by_cases hm : rowMatches r uid
        · have hp : ¬ rowHasProfile r := by
            intro hc
            exact hq (by simp [hm, hc])
          simp only [hm, if_true, hp, if_false]
          cases hidx : rowItemIndex r <;> simp [ih]
        · simp [hm, ih]

/-- `get_next_index` returns `some j` exactly when `j` heads the unanswered
suffix: everything before it is answered, `j` itself is not. -/
theorem get_next_index_some_iff (l ans : List Int) (j : Int) :
    get_next_index l ans = some j ↔
      ∃ l1 l2, l = l1 ++ j :: l2 ∧ ans.contains j = false ∧
        ∀ x ∈ l1, ans.contains x = true := by
  induction l with
  | nil =>
      simp only [get_next_index]
      constructor
      · intro h; cases h
      · rintro ⟨l1, l2, h, -, -⟩
        exact absurd h (by simp)
  | cons i rest ih =>
      simp only [get_next_index]
      by_cases hc : ans.contains i
      · rw [if_pos hc, ih]
        constructor
        · rintro ⟨l1, l2, rfl, hj, hall⟩
          exact ⟨i :: l1, l2, rfl, hj, by
            intro x hx
            rcases List.mem_cons.1 hx with rfl | hx
            · exact hc
            · exact hall x hx⟩
        · rintro ⟨l1, l2, heq, hj, hall⟩
          cases l1 with
          | nil =>
              simp at heq
              rcases heq with ⟨rfl, -⟩
              rw [hc] at hj
              cases hj
          | cons y l1 =>
              simp only [List.cons_append, List.cons.injEq] at heq
              rcases heq with ⟨rfl, rfl⟩
              exact ⟨l1, l2, rfl, hj, fun x hx => hall x (List.mem_cons_of_mem _ hx)⟩
      · rw [if_neg hc]
        constructor
        · rintro ⟨rfl⟩
          exact ⟨[], rest, rfl, by simpa using hc, by simp⟩
        · rintro ⟨l1, l2, heq, hj, hall⟩
          cases l1 with
          | nil =>
              simp at heq
              rcases heq with ⟨rfl, -⟩
              rfl
          | cons y l1 =>
              simp only [List.cons_append, List.cons.injEq] at heq
              rcases heq with ⟨rfl, rfl⟩
              exact absurd (hall i (by simp)) hc

/-- `get_next_index` returns the sentinel `none` exactly when every listed
index is answered. -/
theorem get_next_index_none_iff (l ans : List Int) :
    get_next_index l ans = none ↔ ∀ x ∈ l, ans.contains x = true := by
  induction l with
  | nil => simp [get_next_index]
  | cons i rest ih =>
      simp only [get_next_index]
      by_cases hc : ans.contains i
      · rw [if_pos hc, ih]
        constructor
        · intro h x hx
          rcases List.mem_cons.1 hx with rfl | hx
          · exact hc
          · exact h x hx
        · intro h x hx
          exact h x (List.mem_cons_of_mem _ hx)
      · rw [if_neg hc]
        constructor
        · intro h; cases h
        · intro h
          exact absurd (h i (by simp)) hc

/-! The claims. -/

/-- C10: the hard-coded allow-list is smaller than its source text suggests —
`correct_uid` has exactly 3 elements, its first element being the single
string obtained by concatenating the eight identifiers `C-2022-1_U57` through
`C-2021-1_U66` (adjacent string literals with missing commas), so `use_uid`
has 13 elements, `MAX_ITEMS = 13`, and none of the eight fused identifiers is
individually an element of the allow-list. -/
theorem claim_C10 :
    correct_uid.length = 3 ∧
    correct_uid.getD 0 "" =
      "C-2022-1_U57C-2022-1_U73C-2021-1_U8C-2021-2_U35C-2021-2_U161C-2021-2_U23C-2021-1_U29C-2021-1_U66" ∧
    use_uid.length = 13 ∧
    MAX_ITEMS = 13 ∧
    (["C-2022-1_U57", "C-2022-1_U73", "C-2021-1_U8", "C-2021-2_U35",
      "C-2021-2_U161", "C-2021-2_U23", "C-2021-1_U29", "C-2021-1_U66"].all
        (fun s => !use_uid.contains s)) = true := by
  refine ⟨rfl, rfl, rfl, rfl, ?_⟩
  decide

/-- C6: side-flip round-trip — for every verdict on the 5-point scale, when
the presentation is flipped, normalizing the selected value by index into the
canonical scale (`RATING_SCALE[reversed.index(v)]`) and then re-applying the
flip (presenting the reversed options at the canonical value's index) yields
the originally presented value again. -/
theorem claim_C6 (v : String) (hv : v ∈ RATING_SCALE) :
    present_flipped (normalize_flipped v) = v := by
  fin_cases hv <;> rfl

/-- Witness for C6 at the first scale value. -/
theorem claim_C6_witness :
    "A が強く良い" ∈ RATING_SCALE ∧
    present_flipped (normalize_flipped "A が強く良い") = "A が強く良い" :=
  ⟨by decide, claim_C6 "A が強く良い" (by decide)⟩

/-- C1: determinism of the assignment — the item list built by `load_items`
and the per-item side flip are pure functions of the two datasets, the
participant id and the index, so two computations on the same inputs are
identical (the embedding exposes every input the Python code reads: the seed
strings fully determine both random streams, and no other state exists). -/
theorem claim_C1 (baseline advice : Dataset) (mi : Nat) (p : String) (i : Nat) :
    load_items baseline advice mi (some p) = load_items baseline advice mi (some p) ∧
    baseline_on_left p i = baseline_on_left p i :=
  ⟨rfl, rfl⟩

/-- C7: a judgment-log read failure degrades to zero progress — when the
worksheet read raises, `load_user_data` returns the empty completed set and
no restored profile, and `load_answered_indices` returns the empty set,
instead of propagating the failure. -/
theorem claim_C7 (e : String) (uid : String) :
    load_user_data (.error e) uid = ([], none) ∧
    load_answered_indices (.error e) uid = [] :=
  ⟨rfl, rfl⟩

/-- C3 counterexample: the two seed-string families are not disjoint — the
ordering-seed string of participant `"5"` coincides with the side-flip-seed
string of participant `"order"` at item index 5 (both are `"order_5"`). -/
theorem claim_C3_counterexample :
    orderSeedString "5" = flipSeedString "order" 5 := by decide

/-- C3 amended: each seed is the unsigned big-endian integer given by the
first 8 bytes of the SHA-256 digest of the UTF-8 encoding of the seed
string; and the two seed-string families are disjoint provided the
participant id of the side-flip string does not itself start with `order`
(the code's prefixes `order_{p}` and `{q}_{i}` collide exactly on such ids). -/
theorem claim_C3_amended (p q : String) (i : Nat)
    (hq : List.isPrefixOf ['o', 'r', 'd', 'e', 'r'] q.data = false) :
    seedOfString (orderSeedString p) =
      bytesToNatBE ((sha256 (utf8Bytes (orderSeedString p))).take 8) ∧
    seedOfString (flipSeedString q i) =
      bytesToNatBE ((sha256 (utf8Bytes (flipSeedString q i))).take 8) ∧
    orderSeedString p ≠ flipSeedString q i := by
  refine ⟨rfl, rfl, ?_⟩
  intro h
  have hd := congrArg String.data h
  have hor : (orderSeedString p).data = 'o' :: 'r' :: 'd' :: 'e' :: 'r' :: '_' :: p.data := by
    show ("order_" ++ p).data = _
    rw [String.data_append]
    rfl
  have hfl : (flipSeedString q i).data = q.data ++ ('_' :: (toString i).data) := by
    show (q ++ "_" ++ toString i).data = _
    rw [String.data_append, String.data_append, List.append_assoc]
    rfl
  rw [hor, hfl] at hd
  rcases hq0 : q.data with _ | ⟨c1, _ | ⟨c2, _ | ⟨c3, _ | ⟨c4, _ | ⟨c5, t⟩⟩⟩⟩⟩ <;>
    rw [hq0] at hd <;>
    simp only [List.nil_append, List.cons_append, List.cons.injEq] at hd
  · exact absurd hd.1 (by decide)
  · exact absurd hd.2.1 (by decide)
  · exact absurd hd.2.2.1 (by decide)
  · exact absurd hd.2.2.2.1 (by decide)
  · exact absurd hd.2.2.2.2.1 (by decide)
  · obtain ⟨h1, h2, h3, h4, h5, -⟩ := hd
    rw [hq0, ← h1, ← h2, ← h3, ← h4, ← h5] at hq
    simp [List.isPrefixOf] at hq

/-- Witness for C3 (amended) at `p = "x"`, `q = "bob"`, `i = 0`. -/
theorem claim_C3_witness :
    List.isPrefixOf ['o', 'r', 'd', 'e', 'r'] ("bob" : String).data = false ∧
    orderSeedString "x" ≠ flipSeedString "bob" 0 :=
  ⟨by decide, (claim_C3_amended "x" "bob" 0 (by decide)).2.2⟩

/-- C4: idempotent resumption — the completed set contains an index exactly
when some matching log record carries it (duplicates tolerated); appending a
judgment for item `i` makes a fresh query include `i`; and next-item
resolution returns the first index of the presentation order outside the
completed set, or the sentinel `none` when none remain. -/
theorem claim_C4 :
    (∀ (log : List Row) (uid : String) (i : Int),
        i ∈ (load_user_data (.ok log) uid).1 ↔
          ∃ r ∈ log, rowMatches r uid ∧ rowItemIndex r = some i) ∧
    (∀ (log : List Row) (uid : String) (rec : Row) (i : Int),
        rowMatches rec uid → rowItemIndex rec = some i →
          i ∈ (load_user_data (.ok (log ++ [rec])) uid).1) ∧
    (∀ (l ans : List Int) (j : Int),
        get_next_index l ans = some j ↔
          ∃ l1 l2, l = l1 ++ j :: l2 ∧ ans.contains j = false ∧
            ∀ x ∈ l1, ans.contains x = true) ∧
    (∀ (l ans : List Int),
        get_next_index l ans = none ↔ ∀ x ∈ l, ans.contains x = true) := by
  have h1 : ∀ (log : List Row) (uid : String) (i : Int),
      i ∈ (load_user_data (.ok log) uid).1 ↔
        ∃ r ∈ log, rowMatches r uid ∧ rowItemIndex r = some i := by
    intro log uid i
    cases log with
    | nil => simp [load_user_data]
    | cons r rest =>
        have hld : load_user_data (.ok (r :: rest)) uid =
            userDataScan uid (r :: rest) ([], none) := by
          simp [load_user_data]
        rw [hld, userDataScan_fst]
        simp only [List.nil_append, List.mem_filterMap]
        constructor
        · rintro ⟨r', hr', hif⟩
          by_cases hm : rowMatches r' uid
          · rw [if_pos hm] at hif
            exact ⟨r', hr', hm, hif⟩
          · rw [if_neg hm] at hif
            cases hif
        · rintro ⟨r', hr', hm, hidx⟩
          exact ⟨r', hr', by rw [if_pos hm, hidx]⟩
  refine ⟨h1, ?_, get_next_index_some_iff, get_next_index_none_iff⟩
  intro log uid rec i hm hidx
  exact (h1 (log ++ [rec]) uid i).mpr ⟨rec, by simp, hm, hidx⟩

/-- Witness for C4: appending a judgment row for item 3 by `alice` to an
empty log makes the completed set include 3. -/
theorem claim_C4_witness :
    rowMatches [("user_id", Cell.str "alice"), ("item_index", Cell.int 3)] "alice" = true ∧
    rowItemIndex [("user_id", Cell.str "alice"), ("item_index", Cell.int 3)] = some 3 ∧
    (3 : Int) ∈ (load_user_data
      (.ok ([] ++ [[("user_id", Cell.str "alice"), ("item_index", Cell.int 3)]])) "alice").1 :=
  ⟨by decide, by decide,
    claim_C4.2.1 [] "alice" [("user_id", Cell.str "alice"), ("item_index", Cell.int 3)] 3
      (by decide) (by decide)⟩

/-- C8 counterexample: the profile criterion is `kyushu_student` truthiness
alone, not non-emptiness of the profile fields.  A single matching record
with a non-empty `kyushu_student` but empty other profile fields IS restored
(with those empty fields), although no record has all profile fields
non-empty; and a single matching record with an empty `kyushu_student` but
non-empty `info_course_taken` / `info_course_grade` is NOT restored although
it has non-empty profile fields.  Either reading of the claim's "whose
profile fields are non-empty" is therefore refuted. -/
theorem claim_C8_counterexample :
    ((load_user_data (.ok [[("user_id", Cell.str "alice"),
        ("kyushu_student", Cell.str "はい"),
        ("info_course_taken", Cell.str ""),
        ("info_course_grade", Cell.str "")]]) "alice").2 =
      some ⟨some (.str "はい"), some (.str ""), some (.str "")⟩) ∧
    ((load_user_data (.ok [[("user_id", Cell.str "alice"),
        ("kyushu_student", Cell.str ""),
        ("info_course_taken", Cell.str "X"),
        ("info_course_grade", Cell.str "Y")]]) "alice").2 = none) := by
  constructor
  · rfl
  · rfl

/-- C8 amended: profile restoration is last-write-wins over records whose
`kyushu_student` field is truthy — the returned profile holds the three
survey fields of the last matching record with a truthy `kyushu_student`
(whatever the other two fields contain), and is `none` when no matching
record has one. -/
theorem claim_C8_amended (log : List Row) (uid : String) :
    (load_user_data (.ok log) uid).2 =
      ((log.filter (fun r => rowMatches r uid && rowHasProfile r)).getLast?).map
        mkProfile := by
  cases log with
  | nil => rfl
  | cons r rest =>
      have hld : load_user_data (.ok (r :: rest)) uid =
          userDataScan uid (r :: rest) ([], none) := by
        simp [load_user_data]
      rw [hld, userDataScan_snd]
      cases hgl : ((r :: rest).filter (fun r => rowMatches r uid && rowHasProfile r)).getLast? with
      | none => simp
      | some y => simp

/-- C2 counterexample: the subject occupying a given `item_index` is NOT the
same across participants.  On the specification's own end-to-end example
datasets, participant `alice` sees subject `u2` at `item_index` 0 while
participant `bob` sees subject `u1` there: `item_index` is the 0-based
position in the participant's shuffled order, assigned after the shuffle. -/
theorem claim_C2_counterexample :
    ((load_items exBaseline exAdvice MAX_ITEMS (some "alice")).map (·.source_userid) =
      [.str "u2", .str "u1"]) ∧
    ((load_items exBaseline exAdvice MAX_ITEMS (some "bob")).map (·.source_userid) =
      [.str "u1", .str "u2"]) ∧
    (load_items exBaseline exAdvice MAX_ITEMS (some "alice")).map (·.source_userid) ≠
      (load_items exBaseline exAdvice MAX_ITEMS (some "bob")).map (·.source_userid) := by
  have hp : (prioritized_uids exBaseline exAdvice).take MAX_ITEMS = ["u1", "u2"] := by decide
  have e1 : (load_items exBaseline exAdvice MAX_ITEMS (some "alice")).map (·.source_userid) =
      [.str "u2", .str "u1"] := by
    rw [load_items_eq, hp, shuffled_alice]
    decide
  have e2 : (load_items exBaseline exAdvice MAX_ITEMS (some "bob")).map (·.source_userid) =
      [.str "u1", .str "u2"] := by
    rw [load_items_eq, hp, shuffled_bob]
    decide
  refine ⟨e1, e2, ?_⟩
  rw [e1, e2]
  decide

/-- C2 amended: the per-participant shuffle permutes the subjects, not the
index labels — for any two participant inputs the `source_userid` column is
the same multiset (only its order varies), and `item_index` is simply the
0-based position within the participant's own presentation order. -/
theorem claim_C2_amended (baseline advice : Dataset) (mi : Nat)
    (u v : Option String) :
    ((load_items baseline advice mi u).map (·.source_userid)).Perm
      ((load_items baseline advice mi v).map (·.source_userid)) ∧
    ∀ (k : Nat) (h : k < (load_items baseline advice mi u).length),
      ((load_items baseline advice mi u).get ⟨k, h⟩).item_index = k := by
  refine ⟨(load_items_source_perm baseline advice mi u).trans
    (load_items_source_perm baseline advice mi v).symm, ?_⟩
  intro k h
  have he := load_items_eq baseline advice mi u
  rw [List.get_of_eq he ⟨k, h⟩]
  rw [mkRecords_get_index]
  simp [Fin.coe_cast]

/-- Witness for C2 (amended) on the example datasets without a shuffle. -/
theorem claim_C2_amended_witness :
    0 < (load_items exBaseline exAdvice MAX_ITEMS none).length ∧
    ((load_items exBaseline exAdvice MAX_ITEMS none).get ⟨0, by decide⟩).item_index = 0 :=
  ⟨by decide,
    (claim_C2_amended exBaseline exAdvice MAX_ITEMS none none).2 0 (by decide)⟩

/-- C9: the participant id never influences which subjects are selected —
for every pair of datasets and any two participant ids, a subject id appears
in the item list of one participant exactly when it appears in the other's
(truncation to the maximum count happens before the per-participant
shuffle, which only permutes). -/
theorem claim_C9 (baseline advice : Dataset) (mi : Nat) (p1 p2 : String)
    (x : PyVal) :
    x ∈ (load_items baseline advice mi (some p1)).map (·.source_userid) ↔
      x ∈ (load_items baseline advice mi (some p2)).map (·.source_userid) :=
  ((load_items_source_perm baseline advice mi (some p1)).trans
    (load_items_source_perm baseline advice mi (some p2)).symm).mem_iff

/-- C5 counterexample: two mappings sharing both top-level keys, with a key
intersection of size 2, produce only 1 canonical item (only one key survives
the `use_uid` allow-list intersection), not `min MAX_ITEMS 2 = 2`. -/
theorem claim_C5_counterexample :
    cxBaseline.map Prod.fst = cxAdvice.map Prod.fst ∧
    (top_keys_common cxBaseline cxAdvice).length = 2 ∧
    (load_items cxBaseline cxAdvice MAX_ITEMS none).length = 1 ∧
    (load_items cxBaseline cxAdvice MAX_ITEMS none).length ≠ min MAX_ITEMS 2 := by
  refine ⟨rfl, rfl, ?_, ?_⟩
  · decide
  · decide

/-- C5 amended: when the two mappings share all top-level keys, the key
intersection is the whole (sorted, deduplicated) key set, and the canonical
item count is the size of the `use_uid`-allow-list intersection when that is
non-empty (else of the full key intersection), truncated to the configured
maximum.  (`0 < mi` reflects that the code is only invoked with the positive
configured maximum; with a zero maximum and a non-empty selection the Python
would raise inside `sort_values`.) -/
theorem claim_C5_amended (baseline advice : Dataset) (mi : Nat)
    (u : Option String) (_hm : 0 < mi)
    (hk : ∀ k, k ∈ baseline.map Prod.fst ↔ k ∈ advice.map Prod.fst) :
    top_keys_common baseline advice = pySortedSet (baseline.map Prod.fst) ∧
    (load_items baseline advice mi u).length =
      min mi (if prioritized_raw baseline advice = []
              then (common_userids baseline advice).length
              else (prioritized_raw baseline advice).length) := by
  constructor
  · unfold top_keys_common
    congr 1
    apply List.filter_eq_self.mpr
    intro k hkmem
    have : k ∈ advice.map Prod.fst := (hk k).mp hkmem
    exact List.elem_eq_true_of_mem this
  · rw [load_items_eq]
    rw [mkRecords_length]
    rw [(shuffled_order_perm _ u).length_eq]
    rw [List.length_take]
    unfold prioritized_uids
    by_cases hraw : prioritized_raw baseline advice = []
    · rw [if_pos hraw, if_pos hraw]
    · rw [if_neg hraw, if_neg hraw]

/-- Witness for C5 (amended) on the allow-list counterexample datasets. -/
theorem claim_C5_witness :
    top_keys_common cxBaseline cxAdvice = pySortedSet (cxBaseline.map Prod.fst) ∧
    (load_items cxBaseline cxAdvice MAX_ITEMS none).length =
      min MAX_ITEMS (if prioritized_raw cxBaseline cxAdvice = []
                     then (common_userids cxBaseline cxAdvice).length
                     else (prioritized_raw cxBaseline cxAdvice).length) :=
  claim_C5_amended cxBaseline cxAdvice MAX_ITEMS none (by decide) (fun k => Iff.rfl)
